import Mathlib

/-!
Verification development for the research-job subsystem of an Obsidian
plugin (job lifecycle manager, status normalizer, event ingestion
pipeline, and the SQLite-backed job repository).

The TypeScript sources are shallowly embedded: JavaScript runtime values
are modelled by the inductive `JSVal`, JavaScript builtins used by the
code (`JSON.stringify`, `String(..)`, `Number(..)`, `Date#toISOString`,
`String#toLowerCase`) are given executable Lean models, and the one
builtin whose exact behaviour is irrelevant to the statements proved
(`JSON.parse`) is threaded through as an explicit function parameter.
Stateful manager code is embedded as explicit state passing over
`ManagerState`; asynchronous steps are sequentialized (each poll tick
runs to completion before the next), matching the cooperative
single-threaded scheduling model of the source.
-/

namespace TuonResearch

/-- Model of a JavaScript runtime value as it appears in the job
manager's `results` payloads.  Numbers are restricted to integers
(every numeric literal and count in the embedded code paths is
integral); `undefined` is JavaScript `undefined`, distinct from `null`. -/
inductive JSVal where
  | null : JSVal
  | undefined : JSVal
  | bool : Bool → JSVal
  | num : Int → JSVal
  | str : String → JSVal
  | arr : List JSVal → JSVal
  | obj : List (String × JSVal) → JSVal

namespace JSVal

/-- JavaScript truthiness: `null`, `undefined`, `false`, `0` and the
empty string are falsy, every array and object is truthy. -/
def truthy : JSVal → Bool
  | .null => false
  | .undefined => false
  | .bool b => b
  | .num n => n != 0
  | .str s => s != ""
  | .arr _ => true
  | .obj _ => true

/-- Optional-chaining property access `v?.k`: returns the property when
`v` is an object that has it, `undefined` otherwise (matching that
property access on primitives and arrays yields `undefined` for the
plain data keys probed by this code). -/
def getOpt : JSVal → String → JSVal
  | .obj fs, k =>
    match fs.lookup k with
    | some v => v
    | none => .undefined
  | _, _ => .undefined

/-- Strict property access `v.k`: throws (models a `TypeError`) when the
base is `null` or `undefined`, otherwise behaves like `getOpt`. -/
def getStrict : JSVal → String → Except Unit JSVal
  | .null, _ => .error ()
  | .undefined, _ => .error ()
  | v, k => .ok (v.getOpt k)

/-- JavaScript `a || b`: `a` when truthy, else `b`. -/
def jsOr (a b : JSVal) : JSVal := if a.truthy then a else b

/-- JavaScript nullish coalescing `a ?? b`. -/
def jsCoalesce (a b : JSVal) : JSVal :=
  match a with
  | .null => b
  | .undefined => b
  | v => v

/-- `Array.isArray`. -/
def isArr : JSVal → Bool
  | .arr _ => true
  | _ => false

/-- `typeof v === "number"`. -/
def isNum : JSVal → Bool
  | .num _ => true
  | _ => false

/-- `typeof v === "string"`. -/
def isStr : JSVal → Bool
  | .str _ => true
  | _ => false

/-- `typeof v === "object" && v !== null` (arrays included), used by the
`!raw || typeof raw !== "object"` guards together with `truthy`. -/
def isObjectLike : JSVal → Bool
  | .obj _ => true
  | .arr _ => true
  | _ => false

/-- `typeof v === "string" ? v : null` as an `Option`. -/
def asStrOpt : JSVal → Option String
  | .str s => some s
  | _ => none

/-- `typeof v === "number" ? v : null` as an `Option`. -/
def asNumOpt : JSVal → Option Int
  | .num n => some n
  | _ => none

end JSVal

open JSVal

mutual

/-- Model of the JavaScript `String(..)` coercion for the value shapes
that reach it in this code (arrays stringify by comma-joining their
elements, with nullish elements rendered empty; plain objects render as
`[object Object]`). -/
def jsToString : JSVal → String
  | .null => "null"
  | .undefined => "undefined"
  | .bool b => if b then "true" else "false"
  | .num n => toString n
  | .str s => s
  | .arr xs => jsToStringList xs
  | .obj _ => "[object Object]"

/-- Array joining for the `String(..)` model (`Array#join` with `,`). -/
def jsToStringList : List JSVal → String
  | [] => ""
  | [v] =>
    match v with
    | .null => ""
    | .undefined => ""
    | v => jsToString v
  | v :: rest =>
    (match v with
     | .null => ""
     | .undefined => ""
     | v => jsToString v) ++ "," ++ jsToStringList rest

end

/-- Model of `String#toLowerCase` (ASCII, which covers every status and
event-type string this code compares). -/
def jsToLowerCase (s : String) : String := String.mk (s.data.map Char.toLower)

/-- Model of `String#trim`. -/
def jsTrim (s : String) : String :=
  String.mk (((s.data.dropWhile Char.isWhitespace).reverse.dropWhile
    Char.isWhitespace).reverse)

/-- Model of `String#slice(0, n)` for the 500-character message
truncation. -/
def jsSlice (s : String) (n : Nat) : String := String.mk (s.data.take n)

/-- Decimal integer parser used by the `Number(..)` model. -/
def parseDecInt (s : String) : Option Int :=
  let digits (cs : List Char) : Option Nat :=
    if cs.isEmpty then none
    else if cs.all Char.isDigit then
      some (cs.foldl (fun acc c => acc * 10 + (c.toNat - 48)) 0)
    else none
  match s.data with
  | '-' :: rest => (digits rest).map (fun n => -(n : Int))
  | '+' :: rest => (digits rest).map (fun n => (n : Int))
  | cs => (digits cs).map (fun n => (n : Int))

/-- Model of the JavaScript `Number(..)` coercion restricted to the
value shapes the embedded code feeds it: numbers pass through, booleans
become 0/1, `null` and the empty/blank string become 0, decimal integer
strings parse, anything non-numeric is NaN (`none`). -/
def jsToNumber : JSVal → Option Int
  | .num n => some n
  | .bool b => some (if b then 1 else 0)
  | .null => some 0
  | .undefined => none
  | .str s => if jsTrim s = "" then some 0 else parseDecInt (jsTrim s)
  | .arr [] => some 0
  | .arr _ => none
  | .obj _ => none

/-- JSON string quoting for the `JSON.stringify` model (escapes the
quote, backslash and common control characters). -/
def jsonQuote (s : String) : String :=
  "\"" ++ String.join (s.data.map (fun c =>
    if c = '"' then "\\\""
    else if c = '\\' then "\\\\"
    else if c = '\n' then "\\n"
    else if c = '\t' then "\\t"
    else if c = '\r' then "\\r"
    else String.singleton c)) ++ "\""

mutual

/-- Model of `JSON.stringify` on defined values: `undefined` members of
objects are skipped, `undefined` entries of arrays serialize as
`null`. -/
def jsonSerialize : JSVal → String
  | .null => "null"
  | .undefined => "null"
  | .bool b => if b then "true" else "false"
  | .num n => toString n
  | .str s => jsonQuote s
  | .arr xs => "[" ++ jsonSerializeList xs ++ "]"
  | .obj fs => "\x7b" ++ jsonSerializeFields fs ++ "\x7d"

/-- Array part of the `JSON.stringify` model. -/
def jsonSerializeList : List JSVal → String
  | [] => ""
  | [v] => jsonSerialize v
  | v :: rest => jsonSerialize v ++ "," ++ jsonSerializeList rest

/-- Object part of the `JSON.stringify` model (keys with `undefined`
values are omitted, as `JSON.stringify` does). -/
def jsonSerializeFields : List (String × JSVal) → String
  | [] => ""
  | (k, v) :: rest =>
    match v with
    | .undefined => jsonSerializeFields rest
    | v =>
      let entry := jsonQuote k ++ ":" ++ jsonSerialize v
      match jsonSerializeFields rest with
      | "" => entry
      | tail => entry ++ "," ++ tail

end

/-- Model of `JSON.stringify` as used by `safeJsonStringify`:
`JSON.stringify(undefined)` is `undefined` (`none`); on the inductive
`JSVal` (no cycles, no bigints) it never throws. -/
def jsonStringifyModel : JSVal → Option String
  | .undefined => none
  | v => some (jsonSerialize v)

/-- `safeJsonStringify` (src/unnamed/part_001 lines 334-341): returns
`null` for `undefined`, otherwise stringifies; the `try/catch` never
fires on `JSVal` data. -/
def safeJsonStringify (value : JSVal) : Option String :=
  jsonStringifyModel value

/-! ### 32-bit integer semantics for the event-id hash -/

/-- JavaScript `ToUint32` (`n >>> 0`). -/
def toUint32 (n : Int) : Int := n % 4294967296

/-- JavaScript `ToInt32` (the coercion applied by `^` and `<<`). -/
def toInt32 (n : Int) : Int := (n + 2147483648) % 4294967296 - 2147483648

/-- JavaScript 32-bit left shift `n << k`. -/
def shl32 (n : Int) (k : Nat) : Int := toInt32 (toInt32 n * (2 ^ k : Nat))

/-- JavaScript 32-bit XOR `a ^ b`. -/
def xor32 (a b : Int) : Int :=
  toInt32 (Int.ofNat (Nat.xor (toUint32 a).toNat (toUint32 b).toNat))

/-- One iteration of `hashString`'s loop (src/unnamed/part_001 lines
598-601).  After `hash ^= c` the value is an int32; the following `+=`
is exact float64 integer arithmetic (all summands are below `2^33`), so
modelling the accumulator as an unbounded `Int` between iterations is
faithful. -/
def hashStep (h : Int) (c : Nat) : Int :=
  let h1 := xor32 h c
  h1 + (shl32 h1 1 + shl32 h1 4 + shl32 h1 7 + shl32 h1 8 + shl32 h1 24)

/-- Lowercase hexadecimal rendering of a natural number
(`Number#toString(16)` on a uint32). -/
def natToHex (n : Nat) : String := String.mk (Nat.toDigits 16 n)

/-- `hashString` (src/unnamed/part_001 lines 596-603): FNV-style string
hash over the UTF-16 code units (modelled by the characters' scalar
values, which coincide on the BMP strings this code hashes), rendered as
lowercase hex of the final `hash >>> 0`. -/
def hashString (value : String) : String :=
  natToHex (toUint32 (value.data.foldl (fun h c => hashStep h c.toNat) 2166136261)).toNat

/-! ### Timestamp normalization -/

/-- Civil date from days since the Unix epoch (standard
days-to-`(year, month, day)` conversion, used to model
`Date#toISOString`). -/
def civilFromDays (z0 : Int) : Int × Int × Int :=
  let z := z0 + 719468
  let era := Int.fdiv z 146097
  let doe := z - era * 146097
  let yoe := Int.fdiv (doe - Int.fdiv doe 1460 + Int.fdiv doe 36524 - Int.fdiv doe 146096) 365
  let y := yoe + era * 400
  let doy := doe - (365 * yoe + Int.fdiv yoe 4 - Int.fdiv yoe 100)
  let mp := Int.fdiv (5 * doy + 2) 153
  let d := doy - Int.fdiv (153 * mp + 2) 5 + 1
  let m := mp + (if mp < 10 then 3 else -9)
  (y + (if m ≤ 2 then 1 else 0), m, d)

/-- Zero padding for the ISO renderer. -/
def padNum (width : Nat) (n : Int) : String :=
  let s := toString n.toNat
  String.mk (List.replicate (width - s.length) '0') ++ s

/-- Model of `Date#toISOString` for an epoch-millisecond value inside
the valid `Date` range. -/
def isoOfMs (ms : Int) : String :=
  let days := Int.fdiv ms 86400000
  let msOfDay := ms - days * 86400000
  let ymd := civilFromDays days
  let hh := Int.fdiv msOfDay 3600000
  let mm := Int.fdiv (msOfDay % 3600000) 60000
  let ss := Int.fdiv (msOfDay % 60000) 1000
  let sss := msOfDay % 1000
  padNum 4 ymd.1 ++ "-" ++ padNum 2 ymd.2.1 ++ "-" ++ padNum 2 ymd.2.2 ++ "T" ++
    padNum 2 hh ++ ":" ++ padNum 2 mm ++ ":" ++ padNum 2 ss ++ "." ++ padNum 3 sss ++ "Z"

/-- `new Date(ms).getTime()` is `NaN` exactly outside this range. -/
def msInDateRange (ms : Int) : Bool := ms.natAbs ≤ 8640000000000000

/-- `normalizeEventTimestamp` (src/unnamed/part_001 lines 479-488):
falsy values fall back to the poll timestamp, strings pass through,
numbers are interpreted as epoch seconds or milliseconds (threshold
`10^12`) and rendered ISO when the resulting date is valid. -/
def normalizeEventTimestamp (value : JSVal) (fallback : String) : String :=
  if ¬ value.truthy then fallback
  else
    match value with
    | .str s => s
    | .num n =>
      let ms := if n > 1000000000000 then n else n * 1000
      if msInDateRange ms then isoOfMs ms else fallback
    | _ => fallback

/-- `clampProgress` (src/unnamed/part_001 lines 589-594): `null` and
`undefined` stay `null`; other values go through `Number(..)` and are
clamped into `[0, 100]` (`Math.round` is the identity on the integral
numbers modelled here); non-numeric coercions (NaN) become `null`. -/
def clampProgress (value : JSVal) : Option Int :=
  match value with
  | .null => none
  | .undefined => none
  | v =>
    match jsToNumber v with
    | none => none
    | some n => some (max 0 (min 100 n))

/-! ### Status normalizer -/

/-- `normalizeResults` (src/unnamed/part_001 lines 322-332).  `parse` is
the ambient `JSON.parse` builtin: `none` models a parse that throws,
which the source catches and replaces by the `{markdown: ...}`
wrapper.  Falsy inputs (including the empty string) normalize to
`null` before the string branch is reached. -/
def normalizeResults (parse : String → Option JSVal) (results : JSVal) : JSVal :=
  if ¬ results.truthy then .null
  else
    match results with
    | .str s =>
      match parse s with
      | some v => v
      | none => .obj [("markdown", .str s)]
    | v => v

/-- `ExtractedReportData` (src/unnamed/part_001 lines 271-281); the
TypeScript `| null` fields are `Option`s. -/
structure ExtractedReportData where
  title : Option String := none
  summary : Option String := none
  markdown : Option String := none
  citationCount : Option Int := none
  sectionsJson : Option String := none
  enhancedContentJson : Option String := none
  currentSectionIndex : Option Int := none
  totalSections : Option Int := none
  exaResearchId : Option String := none
deriving DecidableEq

/-- The report-locating probe of `extractReportData`
(src/unnamed/part_001 lines 284-290): first truthy of `final_report`,
`finalReport`, `report`, `final`, `result`, else the input itself. -/
def locateReport (data : JSVal) : JSVal :=
  jsOr (data.getOpt "final_report")
    (jsOr (data.getOpt "finalReport")
      (jsOr (data.getOpt "report")
        (jsOr (data.getOpt "final")
          (jsOr (data.getOpt "result") data))))

/-- Translation of the idiom
`typeof data?.k === "number" ? data.k : null`: the strict second access
is only evaluated under the typeof guard. -/
def guardedNumField (data : JSVal) (k : String) : Except Unit (Option Int) :=
  if (data.getOpt k).isNum then do
    let v ← data.getStrict k
    pure v.asNumOpt
  else pure none

/-- Translation of the idiom
`typeof data?.k === "string" ? data.k : null`. -/
def guardedStrField (data : JSVal) (k : String) : Except Unit (Option String) :=
  if (data.getOpt k).isStr then do
    let v ← data.getStrict k
    pure v.asStrOpt
  else pure none

/-- The `citationCount` probe of `extractReportData`
(src/unnamed/part_001 lines 301-304):
`report?.citation_count || report?.citationCount ||
(Array.isArray(report?.citations) ? report.citations.length : null)` —
note the truthiness semantics of `||`: a `0` count falls through to the
next alternative.  The strict `report.citations` access only runs under
the `Array.isArray` guard. -/
def citationCountProbe (report : JSVal) : Except Unit JSVal :=
  if (report.getOpt "citation_count").truthy then pure (report.getOpt "citation_count")
  else if (report.getOpt "citationCount").truthy then pure (report.getOpt "citationCount")
  else if (report.getOpt "citations").isArr then do
    let cits ← report.getStrict "citations"
    match cits with
    | .arr xs => pure (JSVal.num xs.length)
    | v => pure (v.getOpt "length")
  else pure .null

/-- `extractReportData` (src/unnamed/part_001 lines 283-320), embedded
in an exception monad so that "never throws" is a provable statement:
`getStrict` models the member accesses written without `?.` in the
source (`report.citations.length`, `data.current_section_index`,
`data.total_sections`, `data.researchId`), each of which would raise a
`TypeError` on a nullish base. -/
def extractReportDataE (data : JSVal) : Except Unit ExtractedReportData := do
  let report := locateReport data
  let markdown :=
    jsOr (report.getOpt "processed_markdown")
      (jsOr (report.getOpt "processedMarkdown")
        (jsOr (report.getOpt "markdown")
          (jsOr (report.getOpt "content") (report.getOpt "report"))))
  let title := jsOr (report.getOpt "title") (jsOr (data.getOpt "title") .null)
  let summary := jsOr (report.getOpt "summary") (jsOr (data.getOpt "summary") .null)
  let citationCount ← citationCountProbe report
  let sections := jsOr (report.getOpt "sections") (data.getOpt "sections")
  let enhancedContent :=
    jsOr (data.getOpt "enhanced_content") (jsOr (data.getOpt "enhancedContent") .null)
  let currentSectionIndex ← guardedNumField data "current_section_index"
  let totalSections ← guardedNumField data "total_sections"
  let exaResearchId ← guardedStrField data "researchId"
  return {
    title := title.asStrOpt
    summary := summary.asStrOpt
    markdown := markdown.asStrOpt
    citationCount := citationCount.asNumOpt
    sectionsJson := if sections.isArr then safeJsonStringify sections else none
    enhancedContentJson :=
      if enhancedContent.truthy then safeJsonStringify enhancedContent else none
    currentSectionIndex := currentSectionIndex
    totalSections := totalSections
    exaResearchId := exaResearchId
  }

/-- Total version of `extractReportData`; the `.error` branch is
unreachable (see the never-throws theorem for C2). -/
def extractReportData (data : JSVal) : ExtractedReportData :=
  match extractReportDataE data with
  | .ok r => r
  | .error _ => {}

/-! ### Event ingestion pipeline -/

/-- `NormalizedEventPayload` (src/unnamed/part_001 lines 344-357).
Both producing branches always set `createdAt` to a string, so it is
modelled as `String`. -/
structure NormalizedEventPayload where
  id : Option String := none
  type : String
  phase : String
  step : Option String := none
  message : String
  details : JSVal := .undefined
  progress : Option Int := none
  sectionId : Option String := none
  sectionTitle : Option String := none
  sectionIndex : Option Int := none
  totalSections : Option Int := none
  createdAt : String

/-- The `createdAt` probe of `normalizeEventPayload`
(src/unnamed/part_001 lines 383-386):
`raw.createdAt ?? raw.created_at ?? raw.timestamp ?? raw.time`. -/
def tsProbe (raw : JSVal) : JSVal :=
  jsCoalesce (raw.getOpt "createdAt")
    (jsCoalesce (raw.getOpt "created_at")
      (jsCoalesce (raw.getOpt "timestamp") (raw.getOpt "time")))

/-- Result of `extractSectionFields` (src/unnamed/part_001 lines
455-471). -/
structure SectionFields where
  sectionId : Option String
  sectionTitle : Option String
  sectionIndex : Option Int
  totalSections : Option Int

/-- `extractSectionFields` (src/unnamed/part_001 lines 455-471):
snake/camel-case probing with `?? null`, then `!= null` guards
(`String(..)` for the id/title, `typeof === "number"` for the
indices). -/
def extractSectionFields (raw : JSVal) : SectionFields :=
  let sectionId := jsCoalesce (raw.getOpt "sectionId") (jsCoalesce (raw.getOpt "section_id") .null)
  let sectionTitle := jsCoalesce (raw.getOpt "sectionTitle") (jsCoalesce (raw.getOpt "section_title") .null)
  let sectionIndex := jsCoalesce (raw.getOpt "sectionIndex") (jsCoalesce (raw.getOpt "section_index") .null)
  let totalSections := jsCoalesce (raw.getOpt "totalSections") (jsCoalesce (raw.getOpt "total_sections") .null)
  { sectionId :=
      match sectionId with
      | .null => none
      | .undefined => none
      | v => some (jsToString v)
    sectionTitle :=
      match sectionTitle with
      | .null => none
      | .undefined => none
      | v => some (jsToString v)
    sectionIndex := sectionIndex.asNumOpt
    totalSections := totalSections.asNumOpt }

/-- `formatExaEventMessageAndProgress` (src/unnamed/part_001 lines
510-587): the legacy-shape heuristic mapping event subtypes to message
templates and progress milestones; an explicit non-nullish `progress`
on the raw event overrides the heuristic. -/
def formatExaEventMessageAndProgress (evt : JSVal) (eventType : String) :
    String × Option Int :=
  let et := jsToLowerCase eventType
  let message0 := if eventType = "" then "event" else eventType
  let mp : String × Option Int :=
    if et = "plan-operation" ∨ et = "task-operation" then
      let data := jsCoalesce (evt.getOpt "data") (.obj [])
      if data.truthy ∧ data.isObjectLike then
        let opType := jsToLowerCase (jsToString (jsOr (data.getOpt "type") (.str "")))
        if opType = "search" then
          let query := jsTrim (jsToString (jsOr (data.getOpt "query") (.str "")))
          let goal := jsTrim (jsToString (jsOr (data.getOpt "goal") (.str "")))
          let m :=
            if query ≠ "" ∧ goal ≠ "" then "Search: " ++ query ++ " (" ++ goal ++ ")"
            else if query ≠ "" then "Search: " ++ query
            else "Search"
          (m, some (if et = "plan-operation" then (25 : Int) else 70))
        else if opType = "crawl" then
          let result := jsCoalesce (data.getOpt "result") (.obj [])
          let url := if result.truthy ∧ result.isObjectLike then result.getOpt "url" else .null
          ((if url.truthy then "Crawl: " ++ jsToString url else "Crawl"),
            some (if et = "plan-operation" then (55 : Int) else 80))
        else if opType = "think" then
          ("Thinking...", some (if et = "plan-operation" then (10 : Int) else 65))
        else
          (eventType ++ ": " ++ jsToString (jsOr (data.getOpt "type") (.str "operation")),
            some (if et = "plan-operation" then (15 : Int) else 65))
      else (message0, none)
    else if et = "plan-output" then
      let output := jsCoalesce (evt.getOpt "output") (.obj [])
      if output.truthy ∧ output.isObjectLike then
        let outputType := jsToLowerCase (jsToString (jsOr (output.getOpt "outputType") (.str "")))
        if outputType = "tasks" then
          let tasks := jsCoalesce (output.getOpt "tasksInstructions") (.arr [])
          ((match tasks with
            | .arr xs => "Planned " ++ toString xs.length ++ " tasks"
            | _ => "Planned tasks"), some 40)
        else if outputType = "stop" then ("Plan decided to stop", some 40)
        else
          ("Plan output: " ++ jsToString (jsOr (output.getOpt "outputType") (.str "output")),
            some 40)
      else (message0, none)
    else if et = "task-definition" then
      let instrs := jsTrim (jsToString (jsOr (evt.getOpt "instructions") (.str "")))
      let taskId := jsTrim (jsToString (jsOr (evt.getOpt "taskId") (.str "")))
      ((if instrs ≠ "" then "Task created: " ++ instrs
        else if taskId ≠ "" then "Task created: " ++ taskId
        else "Task created"), some 60)
    else if et = "task-output" then
      let taskId := jsTrim (jsToString (jsOr (evt.getOpt "taskId") (.str "")))
      ((if taskId ≠ "" then "Task completed: " ++ taskId else "Task completed"), some 90)
    else
      let status := jsCoalesce (evt.getOpt "status") (evt.getOpt "state")
      ((if status.truthy then jsToString status else message0), none)
  let resolvedProgress :=
    match evt.getOpt "progress" with
    | .null =>
      match mp.2 with
      | some n => clampProgress (.num n)
      | none => none
    | .undefined =>
      match mp.2 with
      | some n => clampProgress (.num n)
      | none => none
    | v => clampProgress v
  (jsSlice mp.1 500, resolvedProgress)

/-- `normalizeEventPayload` (src/unnamed/part_001 lines 380-420):
non-objects are rejected; objects carrying string `type`, `phase` and
`message` pass through (with 500-character truncation and
`details ?? raw`), anything else becomes a synthetic `exa_event`. -/
def normalizeEventPayload (raw : JSVal) (fallbackTimestamp : String) :
    Option NormalizedEventPayload :=
  if ¬ (raw.truthy && raw.isObjectLike) then none
  else
    let sectionFields := extractSectionFields raw
    let createdAt := normalizeEventTimestamp (tsProbe raw) fallbackTimestamp
    if (raw.getOpt "type").isStr && (raw.getOpt "phase").isStr && (raw.getOpt "message").isStr then
      some {
        id := (raw.getOpt "id").asStrOpt
        type := jsToString (raw.getOpt "type")
        phase := jsToString (raw.getOpt "phase")
        step := if (raw.getOpt "step").truthy then some (jsToString (raw.getOpt "step")) else none
        message := jsSlice (jsToString (raw.getOpt "message")) 500
        details := jsCoalesce (raw.getOpt "details") raw
        progress := clampProgress (raw.getOpt "progress")
        createdAt := createdAt
        sectionId := sectionFields.sectionId
        sectionTitle := sectionFields.sectionTitle
        sectionIndex := sectionFields.sectionIndex
        totalSections := sectionFields.totalSections }
    else
      let eventType :=
        jsToString (jsOr (raw.getOpt "eventType")
          (jsOr (raw.getOpt "event_type")
            (jsOr (raw.getOpt "type")
              (jsOr (raw.getOpt "event")
                (jsOr (raw.getOpt "status") (.str "event"))))))
      let mp := formatExaEventMessageAndProgress raw eventType
      some {
        type := "exa_event"
        phase := "exa"
        step := some eventType
        message := jsSlice mp.1 500
        details := raw
        progress := mp.2
        createdAt := createdAt
        sectionId := sectionFields.sectionId
        sectionTitle := sectionFields.sectionTitle
        sectionIndex := sectionFields.sectionIndex
        totalSections := sectionFields.totalSections }

/-- `ResearchEventRow` (src/unnamed/part_000 lines 183-198). -/
structure ResearchEventRow where
  id : String
  job_id : String
  user_id : String
  type : String
  phase : String
  step : Option String
  message : String
  details : Option String
  progress : Option Int
  section_id : Option String
  section_title : Option String
  section_index : Option Int
  total_sections : Option Int
  created_at : String
deriving DecidableEq

/-- `normalizeDetails` (src/unnamed/part_001 lines 473-477). -/
def normalizeDetails (details : JSVal) : Option String :=
  match details with
  | .undefined => none
  | .null => none
  | .str s => some s
  | v => safeJsonStringify v

/-- `buildEventId` (src/unnamed/part_001 lines 490-508): the
content-derived event identifier, a hash of the `|`-joined tuple
`(jobId, type, phase, step, message, createdAt, hash of details,
sequence index)`; a truthy `details` string contributes its hash, an
empty or absent one contributes the empty string. -/
def buildEventId (jobId : String) (normalized : NormalizedEventPayload)
    (createdAt : String) (details : Option String) (index : Nat) : String :=
  let detailsPart :=
    match details with
    | some d => if d = "" then "" else hashString d
    | none => ""
  let signature :=
    jobId ++ "|" ++ normalized.type ++ "|" ++ normalized.phase ++ "|" ++
      normalized.step.getD "" ++ "|" ++ normalized.message ++ "|" ++ createdAt ++ "|" ++
      detailsPart ++ "|" ++ toString index
  "evt_" ++ hashString signature

/-- `buildEventRow` (src/unnamed/part_001 lines 422-453): drops
blank-message events; uses the server-supplied id when it is a
non-empty string, otherwise the content hash. -/
def buildEventRow (jobId userId : String) (normalized : NormalizedEventPayload)
    (fallbackTimestamp : String) (index : Nat) : Option ResearchEventRow :=
  if jsTrim normalized.message = "" then none
  else
    let details := normalizeDetails normalized.details
    let createdAt := normalizeEventTimestamp (.str normalized.createdAt) fallbackTimestamp
    let id :=
      match normalized.id with
      | some s => if s = "" then buildEventId jobId normalized createdAt details index else s
      | none => buildEventId jobId normalized createdAt details index
    some {
      id := id
      job_id := jobId
      user_id := userId
      type := normalized.type
      phase := normalized.phase
      step := normalized.step
      message := normalized.message
      details := details
      progress :=
        clampProgress (match normalized.progress with
          | some n => .num n
          | none => .null)
      section_id := normalized.sectionId
      section_title := normalized.sectionTitle
      section_index := normalized.sectionIndex
      total_sections := normalized.totalSections
      created_at := createdAt }

/-- `extractEventPayloads` (src/unnamed/part_001 lines 359-378): a raw
array is used directly; otherwise a fixed ordered list of nested
locations is probed for an `events` array, first match wins. -/
def extractEventPayloads (results : JSVal) : List JSVal :=
  if ¬ results.truthy then []
  else
    match results with
    | .arr xs => xs
    | _ =>
      let candidates := [
        results.getOpt "events",
        (results.getOpt "data").getOpt "events",
        (results.getOpt "result").getOpt "events",
        (results.getOpt "results").getOpt "events",
        (results.getOpt "payload").getOpt "events",
        (results.getOpt "final_report").getOpt "events",
        (results.getOpt "finalReport").getOpt "events",
        (results.getOpt "final").getOpt "events",
        (results.getOpt "report").getOpt "events",
        (results.getOpt "value").getOpt "events"]
      match candidates.find? (fun c => c.isArr) with
      | some (.arr xs) => xs
      | _ => []

/-- The `forEach` body of `ingestResultEvents` (src/unnamed/part_001
lines 237-250): normalize each raw event of the processed suffix,
build its row (dropping unusable ones), numbering rows from the
absolute index `startIndex + index`. -/
def buildRows (jobId userId fallbackTimestamp : String) :
    Nat → List JSVal → List ResearchEventRow
  | _, [] => []
  | i, e :: rest =>
    match (normalizeEventPayload e fallbackTimestamp).bind
        (fun n => buildEventRow jobId userId n fallbackTimestamp i) with
    | some row => row :: buildRows jobId userId fallbackTimestamp (i + 1) rest
    | none => buildRows jobId userId fallbackTimestamp (i + 1) rest

/-- `ingestResultEvents` (src/unnamed/part_001 lines 222-253): returns
the rows it inserts together with the next cursor.  An empty candidate
list returns the unchanged previous cursor; an in-range previous
cursor selects the suffix starting there; an absent or out-of-range
cursor reprocesses the whole array; the new cursor is the raw array
length. -/
def ingestResultEvents (jobId userId : String) (normalizedResults : JSVal)
    (fallbackTimestamp : String) (previousCount : Option Int) :
    List ResearchEventRow × Option Int :=
  let rawEvents := extractEventPayloads normalizedResults
  if rawEvents.isEmpty then ([], previousCount)
  else
    let startIndex : Nat :=
      match previousCount with
      | some c => if 0 ≤ c ∧ c < (rawEvents.length : Int) then c.toNat else 0
      | none => 0
    (buildRows jobId userId fallbackTimestamp startIndex (rawEvents.drop startIndex),
      some (rawEvents.length : Int))

/-! ### Job repository -/

/-- A TypeScript optional/nullable slot as it appears in
`Partial<ResearchJobRow>` fields: absent (`undefined`), explicit
`null`, or a value.  Nullish coalescing `??` treats the first two
alike. -/
inductive JsOpt (α : Type) where
  | undefined : JsOpt α
  | null : JsOpt α
  | val : α → JsOpt α
deriving DecidableEq

/-- `row.f ?? b` against a non-nullable value `b` (either the existing
column or, when no row exists, the type-appropriate default). -/
def JsOpt.orD {α : Type} (x : JsOpt α) (b : α) : α :=
  match x with
  | .val v => v
  | _ => b

/-- `row.f ?? o ?? null` against an existing nullable column `o`. -/
def JsOpt.orN {α : Type} (x : JsOpt α) (o : Option α) : Option α :=
  match x with
  | .val v => some v
  | _ => o

/-- `row.f ?? undefined ?? null`: the nullable-column merge when no
existing row is found. -/
def JsOpt.toOptN {α : Type} (x : JsOpt α) : Option α :=
  match x with
  | .val v => some v
  | _ => none

/-- `ResearchJobRow` (src/unnamed/part_000 lines 143-181); nullable
columns are `Option`s. -/
structure ResearchJobRow where
  job_id : String
  user_id : String
  instructions : String
  status : String
  progress : Option Int
  results : Option String
  async_server_job_id : Option String
  created_at : String
  updated_at : String
  completed_at : Option String
  title : Option String
  summary : Option String
  citation_count : Option Int
  processed_markdown : Option String
  original_query : Option String
  sections : String
  research_type : String
  response_id : Option String
  webhook_data : Option String
  parent_id : Option String
  job_type : String
  subtopic : Option String
  order_index : Option Int
  estimated_tokens : Option Int
  actual_tokens : Option Int
  started_at : Option String
  tagged_documents : Option String
  enhancement_options : Option String
  running_context : Option String
  enhanced_sections : Option String
  section_metadata : Option String
  enhancement_status : Option String
  current_section_index : Option Int
  total_sections : Option Int
  enhanced_content : Option String
  exa_research_id : Option String
  report_note_path : Option String
deriving DecidableEq

/-- `Partial<ResearchJobRow> & Pick<ResearchJobRow, "job_id" | "user_id">`:
the argument of `upsertJob`.  Every field other than the key may be
absent, explicitly `null`, or a value; fields omitted at a call site
default to absent. -/
structure JobRowPatch where
  job_id : String
  user_id : JsOpt String := .undefined
  instructions : JsOpt String := .undefined
  status : JsOpt String := .undefined
  progress : JsOpt Int := .undefined
  results : JsOpt String := .undefined
  async_server_job_id : JsOpt String := .undefined
  created_at : JsOpt String := .undefined
  updated_at : JsOpt String := .undefined
  completed_at : JsOpt String := .undefined
  title : JsOpt String := .undefined
  summary : JsOpt String := .undefined
  citation_count : JsOpt Int := .undefined
  processed_markdown : JsOpt String := .undefined
  original_query : JsOpt String := .undefined
  sections : JsOpt String := .undefined
  research_type : JsOpt String := .undefined
  response_id : JsOpt String := .undefined
  webhook_data : JsOpt String := .undefined
  parent_id : JsOpt String := .undefined
  job_type : JsOpt String := .undefined
  subtopic : JsOpt String := .undefined
  order_index : JsOpt Int := .undefined
  estimated_tokens : JsOpt Int := .undefined
  actual_tokens : JsOpt Int := .undefined
  started_at : JsOpt String := .undefined
  tagged_documents : JsOpt String := .undefined
  enhancement_options : JsOpt String := .undefined
  running_context : JsOpt String := .undefined
  enhanced_sections : JsOpt String := .undefined
  section_metadata : JsOpt String := .undefined
  enhancement_status : JsOpt String := .undefined
  current_section_index : JsOpt Int := .undefined
  total_sections : JsOpt Int := .undefined
  enhanced_content : JsOpt String := .undefined
  exa_research_id : JsOpt String := .undefined
  report_note_path : JsOpt String := .undefined

/-- The jobs table, keyed by `job_id`. -/
def JobStore : Type := String → Option ResearchJobRow

/-- `ResearchRepo.getJob` (src/unnamed/part_000 lines 377-379). -/
def getJob (store : JobStore) (jobId : String) : Option ResearchJobRow := store jobId

/-- The `values` computation of `ResearchRepo.upsertJob`
(src/unnamed/part_000 lines 206-244): every column is
`row.f ?? existing?.f ?? default`.  The `existing?.f` optional chain is
rendered by a single case split on `existing` (when a row exists the
column value is used, except that nullable columns can still fall
through to `null`); this is exactly the per-field nullish-coalescing
chain of the source. -/
def upsertValues (now : String) (existing : Option ResearchJobRow)
    (row : JobRowPatch) : ResearchJobRow :=
  match existing with
  | some e =>
    { job_id := row.job_id
      user_id := row.user_id.orD e.user_id
      instructions := row.instructions.orD e.instructions
      status := row.status.orD e.status
      progress := row.progress.orN e.progress
      results := row.results.orN e.results
      async_server_job_id := row.async_server_job_id.orN e.async_server_job_id
      created_at := row.created_at.orD e.created_at
      updated_at := row.updated_at.orD e.updated_at
      completed_at := row.completed_at.orN e.completed_at
      title := row.title.orN e.title
      summary := row.summary.orN e.summary
      citation_count := row.citation_count.orN e.citation_count
      processed_markdown := row.processed_markdown.orN e.processed_markdown
      original_query := row.original_query.orN e.original_query
      sections := row.sections.orD e.sections
      research_type := row.research_type.orD e.research_type
      response_id := row.response_id.orN e.response_id
      webhook_data := row.webhook_data.orN e.webhook_data
      parent_id := row.parent_id.orN e.parent_id
      job_type := row.job_type.orD e.job_type
      subtopic := row.subtopic.orN e.subtopic
      order_index := row.order_index.orN e.order_index
      estimated_tokens := row.estimated_tokens.orN e.estimated_tokens
      actual_tokens := row.actual_tokens.orN e.actual_tokens
      started_at := row.started_at.orN e.started_at
      tagged_documents := row.tagged_documents.orN e.tagged_documents
      enhancement_options := row.enhancement_options.orN e.enhancement_options
      running_context := row.running_context.orN e.running_context
      enhanced_sections := row.enhanced_sections.orN e.enhanced_sections
      section_metadata := row.section_metadata.orN e.section_metadata
      enhancement_status := row.enhancement_status.orN e.enhancement_status
      current_section_index := row.current_section_index.orN e.current_section_index
      total_sections := row.total_sections.orN e.total_sections
      enhanced_content := row.enhanced_content.orN e.enhanced_content
      exa_research_id := row.exa_research_id.orN e.exa_research_id
      report_note_path := row.report_note_path.orN e.report_note_path }
  | none =>
    { job_id := row.job_id
      user_id := row.user_id.orD ""
      instructions := row.instructions.orD ""
      status := row.status.orD "pending"
      progress := row.progress.toOptN
      results := row.results.toOptN
      async_server_job_id := row.async_server_job_id.toOptN
      created_at := row.created_at.orD now
      updated_at := row.updated_at.orD now
      completed_at := row.completed_at.toOptN
      title := row.title.toOptN
      summary := row.summary.toOptN
      citation_count := row.citation_count.toOptN
      processed_markdown := row.processed_markdown.toOptN
      original_query := row.original_query.toOptN
      sections := row.sections.orD "[]"
      research_type := row.research_type.orD "exa"
      response_id := row.response_id.toOptN
      webhook_data := row.webhook_data.toOptN
      parent_id := row.parent_id.toOptN
      job_type := row.job_type.orD "root"
      subtopic := row.subtopic.toOptN
      order_index := row.order_index.toOptN
      estimated_tokens := row.estimated_tokens.toOptN
      actual_tokens := row.actual_tokens.toOptN
      started_at := row.started_at.toOptN
      tagged_documents := row.tagged_documents.toOptN
      enhancement_options := row.enhancement_options.toOptN
      running_context := row.running_context.toOptN
      enhanced_sections := row.enhanced_sections.toOptN
      section_metadata := row.section_metadata.toOptN
      enhancement_status := row.enhancement_status.toOptN
      current_section_index := row.current_section_index.toOptN
      total_sections := row.total_sections.toOptN
      enhanced_content := row.enhanced_content.toOptN
      exa_research_id := row.exa_research_id.toOptN
      report_note_path := row.report_note_path.toOptN }

/-- `ResearchRepo.upsertJob` (src/unnamed/part_000 lines 203-343): the
computed `values` are inserted; on a `job_id` conflict the SQL
`ON CONFLICT DO UPDATE SET` list assigns every column from `excluded`
EXCEPT `job_id` and `created_at`, so the stored `created_at` of an
existing row is never changed. -/
def upsertJob (now : String) (store : JobStore) (row : JobRowPatch) : JobStore :=
  let existing := getJob store row.job_id
  let values := upsertValues now existing row
  fun j =>
    if j = row.job_id then
      match existing with
      | some old => some { values with created_at := old.created_at }
      | none => some values
    else store j

/-- `ResearchRepo.insertEvent` (src/unnamed/part_000 lines 345-368):
`INSERT OR IGNORE` keyed on `id` — a duplicate identifier is a no-op. -/
def insertEvent (events : List ResearchEventRow) (e : ResearchEventRow) :
    List ResearchEventRow :=
  if events.any (fun x => x.id = e.id) then events else events ++ [e]

/-! ### Job lifecycle manager -/

/-- `JobStateCache` entry (src/unnamed/part_001 lines 13-17); a missing
cache entry behaves as `{}` (all slots `undefined`). -/
structure JobStateCache where
  status : Option String := none
  progress : JsOpt Int := .undefined
  eventCount : Option Int := none
deriving DecidableEq

/-- The runtime shape of `JobStatusResponse`
(src/src/research/deepResearchClient.ts lines 23-38) as the manager
consumes it: `progress` may be absent or `null` at runtime (the manager
guards it with `?? null` and `typeof === "number"`), the remaining
optional fields are probed with `??`. -/
structure JobStatusResponse where
  status : String
  progress : JsOpt Int := .undefined
  results : JSVal := .undefined
  started_at : Option String := none
  completed_at : Option String := none
  exa_task_id : Option String := none

/-- `ReportNoteData` (src/src/research/reportNoteWriter.ts lines 3-11). -/
structure ReportNoteData where
  title : String
  summary : Option String
  markdown : String
  originalPrompt : Option String
  optimizedPrompt : Option String
  includePromptSection : Bool
  folder : String

/-- The manager's configuration and ambient collaborators: the
constructor fields of `ResearchJobManager` that the embedded operations
read, plus the two external effects treated as oracles —
`parse` (the `JSON.parse` builtin) and `writeNote` (the vault write in
`ReportNoteWriter.writeReport`, returning the created file's path;
the source always returns a `<folder>/<name>.md` path). -/
structure ManagerConfig where
  userId : String
  outputFolder : String
  includePromptSection : Bool
  parse : String → Option JSVal
  writeNote : ReportNoteData → String

/-- The manager's mutable world, for a fixed plugin instance: the
per-job polling flags and state cache (`polls`, `cache`), the two
repository tables (`jobs`, `events`), the documents created in the
vault (`docs`, in creation order), the user-visible `Notice` messages
(`notices`), and a fresh-name counter modelling `generateId`'s
`crypto.randomUUID` (each generated id is distinct from every
content-hash id, which always starts with `evt_` followed by hex). -/
structure ManagerState where
  polls : String → Bool
  cache : String → Option JobStateCache
  jobs : JobStore
  events : List ResearchEventRow
  docs : List String
  notices : List String
  freshIds : Nat

/-- `generateId` (src/unnamed/part_001 lines 263-268), modelled as a
fresh-name supply. -/
def genId (n : Nat) : String := "uuid-" ++ toString n

/-- The terminal-status test of `applyStatus`
(src/unnamed/part_001 line 186): exact, case-sensitive comparison
against the three lowercase terminal names. -/
def applyStatusTerminal (status : String) : Bool :=
  status = "completed" || status = "failed" || status = "cancelled"

/-- `isTerminalStatus` (src/unnamed/part_001 lines 255-257):
`["completed", "failed", "cancelled"].includes((status || "").toLowerCase())`. -/
def isTerminalStatus (status : Option String) : Bool :=
  ["completed", "failed", "cancelled"].contains (jsToLowerCase (status.getD ""))

/-- `stopPolling` (src/unnamed/part_001 lines 98-104): clears the
interval and removes the job from the active set. -/
def stopPolling (jobId : String) (s : ManagerState) : ManagerState :=
  { s with polls := fun j => if j = jobId then false else s.polls j }

/-- `startPolling` (src/unnamed/part_001 lines 89-96) restricted to its
effect on the active set: a no-op when already polling.  (The immediate
first poll it also fires is modelled separately by `poll`, which needs
the remote response.) -/
def startPolling (jobId : String) (s : ManagerState) : ManagerState :=
  if s.polls jobId then s
  else { s with polls := fun j => if j = jobId then true else s.polls j }

/-- JavaScript truthiness of a nullable string slot
(`if (job.report_note_path)`): a non-empty string. -/
def strOptTruthy : Option String → Bool
  | some p => p != ""
  | none => false

/-- `maybeWriteReport` (src/unnamed/part_001 lines 195-220): skip when
the job is missing or its `report_note_path` is already set (truthy);
blank markdown surfaces a `Notice` and skips; otherwise write the note
and persist its path.  (`new Date()` inside is modelled by the tick's
`now`.) -/
def maybeWriteReport (cfg : ManagerConfig) (now jobId : String)
    (data : ExtractedReportData) (s : ManagerState) : ManagerState :=
  match getJob s.jobs jobId with
  | none => s
  | some job =>
    if strOptTruthy job.report_note_path then s
    else
      match data.markdown with
      | none => { s with notices := s.notices ++ ["Research completed, but no markdown was returned."] }
      | some md =>
        if jsTrim md = "" then
          { s with notices := s.notices ++ ["Research completed, but no markdown was returned."] }
        else
          let path := cfg.writeNote {
            title := match data.title with
              | some t => if t = "" then "Research report" else t
              | none => "Research report"
            summary := data.summary
            markdown := md
            originalPrompt := job.original_query
            optimizedPrompt := some job.instructions
            includePromptSection := cfg.includePromptSection
            folder := cfg.outputFolder }
          let s1 := { s with docs := s.docs ++ [path] }
          { s1 with jobs := upsertJob now s1.jobs {
              job_id := jobId
              user_id := .val cfg.userId
              report_note_path := .val path
              updated_at := .val now } }

/-- The `job_progress` lifecycle event appended by `applyStatus`
(src/unnamed/part_001 lines 168-183). -/
def progressEvent (userId now jobId : String) (st : JobStatusResponse)
    (id : String) : ResearchEventRow :=
  { id := id
    job_id := jobId
    user_id := userId
    type := "job_progress"
    phase := "poll"
    step := none
    message := "Status " ++ st.status ++
      (match st.progress with
       | .val p => " (" ++ toString p ++ "%)"
       | _ => "")
    details := safeJsonStringify (.obj [
      ("status", .str st.status),
      ("progress", match st.progress with
        | .val p => .num p
        | .null => .null
        | .undefined => .undefined)])
    progress := match st.progress with
      | .val p => some p
      | _ => none
    section_id := none
    section_title := none
    section_index := none
    total_sections := none
    created_at := now }

/-- `applyStatus` (src/unnamed/part_001 lines 131-193): one successful
poll tick — normalize the payload, ingest new sub-events, refresh the
cache, full-upsert the job row, append a `job_progress` event iff
status or progress changed, stop polling on a terminal status, and on
`completed` attempt report materialization. -/
def applyStatus (cfg : ManagerConfig) (now jobId : String)
    (st : JobStatusResponse) (s : ManagerState) : ManagerState :=
  let cached := (s.cache jobId).getD {}
  let statusChanged := cached.status ≠ some st.status
  let progressChanged := cached.progress ≠ st.progress
  let normalizedResults := normalizeResults cfg.parse st.results
  let extracted := extractReportData normalizedResults
  let ingested := ingestResultEvents jobId cfg.userId normalizedResults now cached.eventCount
  let s1 : ManagerState := { s with events := ingested.1.foldl insertEvent s.events }
  let newEntry : JobStateCache :=
    { status := some st.status, progress := st.progress, eventCount := ingested.2 }
  let newCache : String → Option JobStateCache := fun j =>
    if j = jobId then some newEntry else s1.cache j
  let s2 : ManagerState := { s1 with cache := newCache }
  let updatedRow : JobRowPatch := {
    job_id := jobId
    user_id := .val cfg.userId
    status := .val st.status
    progress := match st.progress with
      | .val p => .val p
      | _ => .null
    results := match safeJsonStringify st.results with
      | some r => .val r
      | none => .null
    updated_at := .val now
    started_at := match st.started_at with
      | some v => .val v
      | none => .null
    completed_at := match st.completed_at with
      | some v => .val v
      | none => .null
    exa_research_id := match st.exa_task_id with
      | some v => .val v
      | none =>
        match extracted.exaResearchId with
        | some v => .val v
        | none => .null
    title := match extracted.title with
      | some v => .val v
      | none => .null
    summary := match extracted.summary with
      | some v => .val v
      | none => .null
    citation_count := match extracted.citationCount with
      | some v => .val v
      | none => .null
    processed_markdown := match extracted.markdown with
      | some v => .val v
      | none => .null
    sections := .val (extracted.sectionsJson.getD "[]")
    enhanced_content := match extracted.enhancedContentJson with
      | some v => .val v
      | none => .null
    current_section_index := match extracted.currentSectionIndex with
      | some v => .val v
      | none => .null
    total_sections := match extracted.totalSections with
      | some v => .val v
      | none => .null }
  let s3 : ManagerState := { s2 with jobs := upsertJob now s2.jobs updatedRow }
  let s4 : ManagerState :=
    if statusChanged ∨ progressChanged then
      { s3 with
        events := insertEvent s3.events (progressEvent cfg.userId now jobId st (genId s3.freshIds))
        freshIds := s3.freshIds + 1 }
    else s3
  let s5 : ManagerState :=
    if applyStatusTerminal st.status then stopPolling jobId s4 else s4
  if st.status = "completed" then maybeWriteReport cfg now jobId extracted s5 else s5

/-- The `status_error` event appended by `poll`'s catch branch
(src/unnamed/part_001 lines 110-127). -/
def statusErrorEvent (userId now jobId msg : String) (id : String) :
    ResearchEventRow :=
  { id := id
    job_id := jobId
    user_id := userId
    type := "status_error"
    phase := "poll"
    step := none
    message := "Failed to fetch job status"
    details := safeJsonStringify (.obj [("error", .str msg)])
    progress := none
    section_id := none
    section_title := none
    section_index := none
    total_sections := none
    created_at := now }

/-- `poll` (src/unnamed/part_001 lines 106-129): the status fetch's
outcome is passed in as an `Except` (the transport either returns a
parsed response or throws with a message).  A successful fetch runs
`applyStatus`; a failure only appends one `status_error` event. -/
def poll (cfg : ManagerConfig) (now jobId : String)
    (fetched : Except String JobStatusResponse) (s : ManagerState) :
    ManagerState :=
  match fetched with
  | .ok st => applyStatus cfg now jobId st s
  | .error msg =>
    { s with
      events := insertEvent s.events (statusErrorEvent cfg.userId now jobId msg (genId s.freshIds))
      freshIds := s.freshIds + 1 }

/-- `resumeIncompleteJobs` (src/unnamed/part_001 lines 39-47) given the
rows returned by the repository: start polling every listed job whose
status is not terminal per `isTerminalStatus`. -/
def resumeIncompleteJobs (jobs : List ResearchJobRow) (s : ManagerState) :
    ManagerState :=
  jobs.foldl (fun acc job =>
    if ¬ isTerminalStatus (some job.status) then startPolling job.job_id acc
    else acc) s

/-! ## Derived notions used by the theorems -/

/-- The persisted `report_note_path` of a job, read back from the
store. -/
def jobPath (s : ManagerState) (jobId : String) : Option String :=
  (s.jobs jobId).bind (fun r => r.report_note_path)

/-- Whether a tick's raw `results` yield no usable markdown (the
`!data.markdown?.trim()` guard of `maybeWriteReport`, evaluated on the
data `applyStatus` extracts from that payload). -/
def blankExtract (d : ExtractedReportData) : Bool :=
  match d.markdown with
  | none => true
  | some md => jsTrim md == ""

/-- `blankExtract` applied to the data a tick extracts from its raw
`results` payload. -/
def blankMarkdown (cfg : ManagerConfig) (results : JSVal) : Bool :=
  blankExtract (extractReportData (normalizeResults cfg.parse results))

/-- A raw event that carries its own usable timestamp: the `createdAt`
probe finds a non-empty string, so `normalizeEventTimestamp` never
falls back to the poll's wall-clock timestamp. -/
def hasOwnTimestamp (e : JSVal) : Bool :=
  match tsProbe e with
  | .str s => s != ""
  | _ => false

/-! ## Helper lemmas -/

set_option maxRecDepth 10000

theorem getStrict_isOk_of_getOpt_ne_undef (d : JSVal) (k : String)
    (h : d.getOpt k ≠ .undefined) : d.getStrict k = .ok (d.getOpt k) := by
  cases d <;> simp_all [JSVal.getOpt, JSVal.getStrict]

theorem getOpt_isNum_ne_undef {d : JSVal} {k : String}
    (h : (d.getOpt k).isNum = true) : d.getOpt k ≠ .undefined := by
  intro hu
  rw [hu] at h
  simp [JSVal.isNum] at h

theorem getOpt_isStr_ne_undef {d : JSVal} {k : String}
    (h : (d.getOpt k).isStr = true) : d.getOpt k ≠ .undefined := by
  intro hu
  rw [hu] at h
  simp [JSVal.isStr] at h

theorem getOpt_isArr_ne_undef {d : JSVal} {k : String}
    (h : (d.getOpt k).isArr = true) : d.getOpt k ≠ .undefined := by
  intro hu
  rw [hu] at h
  simp [JSVal.isArr] at h

theorem guardedNumField_isOk (d : JSVal) (k : String) :
    ∃ o, guardedNumField d k = Except.ok o := by
  unfold guardedNumField
  split
  · case isTrue h =>
    rw [getStrict_isOk_of_getOpt_ne_undef d k (getOpt_isNum_ne_undef h)]
    exact ⟨_, rfl⟩
  · exact ⟨_, rfl⟩

theorem guardedStrField_isOk (d : JSVal) (k : String) :
    ∃ o, guardedStrField d k = Except.ok o := by
  unfold guardedStrField
  split
  · case isTrue h =>
    rw [getStrict_isOk_of_getOpt_ne_undef d k (getOpt_isStr_ne_undef h)]
    exact ⟨_, rfl⟩
  · exact ⟨_, rfl⟩

theorem citationCountProbe_isOk (report : JSVal) :
    ∃ c, citationCountProbe report = Except.ok c := by
  unfold citationCountProbe
  split
  · exact ⟨_, rfl⟩
  · split
    · exact ⟨_, rfl⟩
    · split
      · case isTrue h =>
        rw [getStrict_isOk_of_getOpt_ne_undef report "citations" (getOpt_isArr_ne_undef h)]
        cases hx : report.getOpt "citations" <;> exact ⟨_, rfl⟩
      · exact ⟨_, rfl⟩

theorem extractReportDataE_isOk (d : JSVal) :
    ∃ r, extractReportDataE d = Except.ok r := by
  obtain ⟨c, hc⟩ := citationCountProbe_isOk (locateReport d)
  obtain ⟨o1, h1⟩ := guardedNumField_isOk d "current_section_index"
  obtain ⟨o2, h2⟩ := guardedNumField_isOk d "total_sections"
  obtain ⟨o3, h3⟩ := guardedStrField_isOk d "researchId"
  simp only [extractReportDataE, hc, h1, h2, h3]
  exact ⟨_, rfl⟩

theorem startPolling_polls (jid : String) (s : ManagerState) (j : String) :
    (startPolling jid s).polls j = (s.polls j || (j == jid)) := by
  unfold startPolling
  by_cases h : s.polls jid
  · by_cases hj : j = jid
    · subst hj; simp [h]
    · simp [h, hj]
  · by_cases hj : j = jid
    · subst hj; simp [h]
    · simp [h, hj]

theorem extractReportData_citationCount (data : JSVal) (c : JSVal)
    (hc : citationCountProbe (locateReport data) = Except.ok c) :
    (extractReportData data).citationCount = c.asNumOpt := by
  obtain ⟨o1, h1⟩ := guardedNumField_isOk data "current_section_index"
  obtain ⟨o2, h2⟩ := guardedNumField_isOk data "total_sections"
  obtain ⟨o3, h3⟩ := guardedStrField_isOk data "researchId"
  simp only [extractReportData, extractReportDataE, hc, h1, h2, h3]
  rfl

theorem citationCountProbe_first_truthy {report : JSVal}
    (h : (report.getOpt "citation_count").truthy = true) :
    citationCountProbe report = Except.ok (report.getOpt "citation_count") := by
  simp [citationCountProbe, h]
  rfl

theorem citationCountProbe_second_truthy {report : JSVal}
    (h1 : (report.getOpt "citation_count").truthy = false)
    (h2 : (report.getOpt "citationCount").truthy = true) :
    citationCountProbe report = Except.ok (report.getOpt "citationCount") := by
  simp [citationCountProbe, h1, h2]
  rfl

theorem citationCountProbe_citations {report : JSVal} {xs : List JSVal}
    (h1 : (report.getOpt "citation_count").truthy = false)
    (h2 : (report.getOpt "citationCount").truthy = false)
    (h3 : report.getOpt "citations" = .arr xs) :
    citationCountProbe report = Except.ok (.num xs.length) := by
  have hne : report.getOpt "citations" ≠ .undefined := by rw [h3]; intro h; cases h
  unfold citationCountProbe
  rw [getStrict_isOk_of_getOpt_ne_undef report "citations" hne]
  simp [h1, h2, h3]
  rfl

theorem citationCountProbe_no_source {report : JSVal}
    (h1 : (report.getOpt "citation_count").truthy = false)
    (h2 : (report.getOpt "citationCount").truthy = false)
    (h3 : (report.getOpt "citations").isArr = false) :
    citationCountProbe report = Except.ok .null := by
  simp [citationCountProbe, h1, h2, h3]
  rfl

/-! ## C2 -/

/-- C2: for every raw `results` value — `null`, `undefined`, a string
that fails to parse, nested objects, arrays — the normalization path
`normalizeResults` followed by `extractReportData` never throws: the
exception-monad embedding (in which the unguarded member accesses of
the source would raise on a nullish base) always returns `.ok`, and the
total extraction function agrees with that result, whose fields are
`Option`s resolving absent or wrong-typed data to `none`. -/
theorem C2_status_normalization_never_throws (parse : String → Option JSVal)
    (v : JSVal) :
    ∃ r : ExtractedReportData,
      extractReportDataE (normalizeResults parse v) = Except.ok r ∧
      extractReportData (normalizeResults parse v) = r := by
  obtain ⟨r, hr⟩ := extractReportDataE_isOk (normalizeResults parse v)
  exact ⟨r, hr, by simp [extractReportData, hr]⟩

/-! ## C7 -/

/-- C7 counterexample: the claim says every string input is sent
through a `JSON.parse` attempt, with the unparsable ones wrapped as
`{markdown: <original string>}`.  But the falsy check precedes the
string branch, so the empty string — unparsable JSON — normalizes to
`null`, not to the wrapper object, no matter what the parser does. -/
theorem C7_counterexample :
    normalizeResults (fun _ => none) (.str "") = JSVal.null ∧
    JSVal.null ≠ JSVal.obj [("markdown", JSVal.str "")] :=
  ⟨rfl, fun h => JSVal.noConfusion h⟩

/-- C7 (amended): `null`/`undefined` and every other falsy input
(including the empty string) normalize to `null`; every NON-empty
string goes through the parse attempt, yielding the parsed value on
success and the `{markdown: <original string>}` wrapper on failure;
objects and arrays pass through unchanged. -/
theorem C7_normalizeResults_amended (parse : String → Option JSVal) :
    normalizeResults parse .null = .null ∧
    normalizeResults parse .undefined = .null ∧
    normalizeResults parse (.str "") = .null ∧
    (∀ s : String, s ≠ "" →
      normalizeResults parse (.str s) =
        match parse s with
        | some w => w
        | none => .obj [("markdown", .str s)]) ∧
    (∀ fs, normalizeResults parse (.obj fs) = .obj fs) ∧
    (∀ xs, normalizeResults parse (.arr xs) = .arr xs) := by
  refine ⟨rfl, rfl, rfl, ?_, fun fs => rfl, fun xs => rfl⟩
  intro s hs
  simp [normalizeResults, JSVal.truthy, hs]

/-- C7 witness: the amended statement at the concrete unparsable
non-empty string `"not json"` under a parser that rejects it. -/
theorem C7_witness :
    ("not json" : String) ≠ "" ∧
    normalizeResults (fun _ => none) (.str "not json") =
      .obj [("markdown", .str "not json")] := by
  refine ⟨by decide, ?_⟩
  have h := (C7_normalizeResults_amended (fun _ => none)).2.2.2.1 "not json" (by decide)
  simpa using h

/-! ## C10 -/

/-- C10 counterexample: the claim says a present explicit count field
wins over the `citations` array length.  The probe uses JavaScript
`||`, so the present-but-zero `citation_count: 0` is skipped and the
length `3` of the citations array is returned instead of `0`. -/
theorem C10_counterexample :
    (extractReportData (.obj [("citation_count", .num 0),
      ("citations", .arr [.null, .null, .null])])).citationCount = some 3 ∧
    (some (3 : Int)) ≠ some (0 : Int) := by
  constructor
  · decide
  · decide

/-- C10 (amended): `citationCount` is derived from the located report's
explicit count field only when that field's value is truthy (for a
number: non-zero) — `citation_count` first, then `citationCount`; when
both are absent or falsy it falls back to the length of a `citations`
array; when additionally no citations array exists the result is
`null`; and a truthy but non-numeric derived value is discarded by the
final `typeof` check (also `null`). -/
theorem C10_citation_count_amended (data : JSVal) :
    (∀ n : Int, n ≠ 0 →
      (locateReport data).getOpt "citation_count" = .num n →
        (extractReportData data).citationCount = some n) ∧
    (∀ n : Int, n ≠ 0 →
      ((locateReport data).getOpt "citation_count").truthy = false →
      (locateReport data).getOpt "citationCount" = .num n →
        (extractReportData data).citationCount = some n) ∧
    (((locateReport data).getOpt "citation_count").truthy = false →
      ((locateReport data).getOpt "citationCount").truthy = false →
      ∀ xs, (locateReport data).getOpt "citations" = .arr xs →
        (extractReportData data).citationCount = some (xs.length : Int)) ∧
    (((locateReport data).getOpt "citation_count").truthy = false →
      ((locateReport data).getOpt "citationCount").truthy = false →
      ((locateReport data).getOpt "citations").isArr = false →
        (extractReportData data).citationCount = none) ∧
    (((locateReport data).getOpt "citation_count").truthy = true →
      ((locateReport data).getOpt "citation_count").isNum = false →
        (extractReportData data).citationCount = none) ∧
    (((locateReport data).getOpt "citation_count").truthy = false →
      ((locateReport data).getOpt "citationCount").truthy = true →
      ((locateReport data).getOpt "citationCount").isNum = false →
        (extractReportData data).citationCount = none) := by
  have hnotnum : ∀ v : JSVal, v.isNum = false → v.asNumOpt = none := by
    intro v hv
    cases v <;> simp_all [JSVal.isNum, JSVal.asNumOpt]
  refine ⟨?_, ?_, ?_, ?_, ?_, ?_⟩
  · intro n hn h
    have ht : ((locateReport data).getOpt "citation_count").truthy = true := by
      rw [h]; simp [JSVal.truthy, hn]
    rw [extractReportData_citationCount data _ (citationCountProbe_first_truthy ht)]
    rw [h]; rfl
  · intro n hn h1 h
    have ht : ((locateReport data).getOpt "citationCount").truthy = true := by
      rw [h]; simp [JSVal.truthy, hn]
    rw [extractReportData_citationCount data _ (citationCountProbe_second_truthy h1 ht)]
    rw [h]; rfl
  · intro h1 h2 xs h3
    rw [extractReportData_citationCount data _ (citationCountProbe_citations h1 h2 h3)]
    rfl
  · intro h1 h2 h3
    rw [extractReportData_citationCount data _ (citationCountProbe_no_source h1 h2 h3)]
    rfl
  · intro ht hnum
    rw [extractReportData_citationCount data _ (citationCountProbe_first_truthy ht)]
    exact hnotnum _ hnum
  · intro h1 ht hnum
    rw [extractReportData_citationCount data _ (citationCountProbe_second_truthy h1 ht)]
    exact hnotnum _ hnum

/-- C10 witness: the amended statement at concrete payloads —
`citation_count: 7` wins; a falsy count with a two-element citations
array yields 2; and a truthy non-numeric `citation_count: "many"` is
discarded to `null` by the final `typeof` check even though a
citations array is present. -/
theorem C10_witness :
    ((7 : Int) ≠ 0 ∧
      (locateReport (.obj [("citation_count", .num 7)])).getOpt "citation_count" = .num 7) ∧
    (extractReportData (.obj [("citation_count", .num 7)])).citationCount = some 7 ∧
    (extractReportData (.obj [("citations", .arr [.null, .null])])).citationCount = some 2 ∧
    (extractReportData (.obj [("citation_count", .str "many"),
      ("citations", .arr [.null, .null])])).citationCount = none := by
  refine ⟨⟨by decide, rfl⟩, ?_, ?_, ?_⟩
  · exact (C10_citation_count_amended (.obj [("citation_count", .num 7)])).1 7
      (by decide) rfl
  · exact (C10_citation_count_amended (.obj [("citations", .arr [.null, .null])])).2.2.1
      rfl rfl [.null, .null] rfl
  · exact (C10_citation_count_amended (.obj [("citation_count", .str "many"),
      ("citations", .arr [.null, .null])])).2.2.2.2.1 (by decide) (by decide)

/-! ## C8 -/

/-- C8 counterexample: the claim says a status is terminal exactly when
it IS one of the strings `completed`/`failed`/`cancelled`, applied
consistently by the per-tick logic and by the resume filter.  The
status `"Completed"` refutes both parts: `isTerminalStatus` lowercases
its input and classifies it terminal although it is not one of the
three strings, while the per-tick check of `applyStatus` compares
case-sensitively and classifies the same status non-terminal. -/
theorem C8_counterexample :
    isTerminalStatus (some "Completed") = true ∧
    applyStatusTerminal "Completed" = false ∧
    "Completed" ∉ (["completed", "failed", "cancelled"] : List String) := by
  refine ⟨by decide, by decide, by decide⟩

/-- C8 (amended): the per-tick logic of `applyStatus` classifies a
status terminal exactly when it equals one of the three lowercase
strings; `resumeIncompleteJobs`' filter `isTerminalStatus` classifies
case-insensitively (terminal exactly when the lowercased status is one
of the three); the two classifications agree on statuses that are
already lowercase (in particular on all five canonical values); and
after `resumeIncompleteJobs` a job is polling iff it was polling before
or it is listed with a status that `isTerminalStatus` deems
non-terminal. -/
theorem C8_terminal_classification_amended :
    (∀ st : String, applyStatusTerminal st = true ↔
      (st = "completed" ∨ st = "failed" ∨ st = "cancelled")) ∧
    (∀ st : String, isTerminalStatus (some st) = true ↔
      (jsToLowerCase st = "completed" ∨ jsToLowerCase st = "failed" ∨
        jsToLowerCase st = "cancelled")) ∧
    (∀ st : String, jsToLowerCase st = st →
      isTerminalStatus (some st) = applyStatusTerminal st) ∧
    (∀ (jobs : List ResearchJobRow) (s : ManagerState) (jid : String),
      (resumeIncompleteJobs jobs s).polls jid =
        (s.polls jid ||
          jobs.any (fun j => j.job_id == jid && !(isTerminalStatus (some j.status))))) := by
  have h1 : ∀ st : String, applyStatusTerminal st = true ↔
      (st = "completed" ∨ st = "failed" ∨ st = "cancelled") := by
    intro st
    simp [applyStatusTerminal]
    tauto
  have h2 : ∀ st : String, isTerminalStatus (some st) = true ↔
      (jsToLowerCase st = "completed" ∨ jsToLowerCase st = "failed" ∨
        jsToLowerCase st = "cancelled") := by
    intro st
    simp [isTerminalStatus, List.contains_cons, List.contains_nil]
  refine ⟨h1, h2, ?_, ?_⟩
  · intro st h
    have e2 := h2 st
    rw [h] at e2
    cases hb : applyStatusTerminal st
    · cases hi : isTerminalStatus (some st)
      · rfl
      · exact absurd ((h1 st).mpr (e2.mp hi)) (by simp [hb])
    · cases hi : isTerminalStatus (some st)
      · exact absurd (e2.mpr ((h1 st).mp hb)) (by simp [hi])
      · rfl
  · intro jobs
    induction jobs with
    | nil => intro s jid; simp [resumeIncompleteJobs]
    | cons job rest ih =>
      intro s jid
      have hfold : resumeIncompleteJobs (job :: rest) s =
          resumeIncompleteJobs rest
            (if ¬ isTerminalStatus (some job.status) then startPolling job.job_id s else s) := by
        simp [resumeIncompleteJobs]
      rw [hfold, ih]
      by_cases ht : isTerminalStatus (some job.status)
      · simp [ht]
      · have htb : isTerminalStatus (some job.status) = false := by simpa using ht
        have hcomm : (jid == job.job_id) = (job.job_id == jid) := by
          by_cases h : jid = job.job_id
          · subst h; rfl
          · simp [beq_iff_eq, h, Ne.symm h]
        rw [if_pos (by simp [htb])]
        simp [startPolling_polls, List.any_cons, htb, hcomm, Bool.or_assoc]

/-- C8 witness: the amended agreement statement at the lowercase status
`"completed"`, and the resume formula at a concrete one-job list. -/
theorem C8_witness :
    jsToLowerCase "completed" = "completed" ∧
    isTerminalStatus (some "completed") = applyStatusTerminal "completed" :=
  ⟨by decide, C8_terminal_classification_amended.2.2.1 "completed" (by decide)⟩

/-! ## C3 -/

theorem buildRows_append (jobId userId fb : String) (i : Nat)
    (xs ys : List JSVal) :
    buildRows jobId userId fb i (xs ++ ys) =
      buildRows jobId userId fb i xs ++ buildRows jobId userId fb (i + xs.length) ys := by
  induction xs generalizing i with
  | nil => simp [buildRows]
  | cons e rest ih =>
    rw [List.cons_append]
    unfold buildRows
    have harith : i + (rest.length + 1) = (i + 1) + rest.length := by omega
    cases hrow : (normalizeEventPayload e fb).bind
        (fun n => buildEventRow jobId userId n fb i) with
    | none =>
      simp [hrow, ih, List.length_cons, harith]
      cases ys <;> rfl
    | some row =>
      simp [hrow, ih, List.length_cons, harith]
      cases ys <;> rfl

/-- Events of the shared concrete fixture: the normalized shape with a
distinct message per index, no server id, no timestamp. -/
def sampleEvent (n : Nat) : JSVal :=
  .obj [("type", .str "step"), ("phase", .str "p"), ("message", .str ("m" ++ toString n))]

/-- A five-event raw `results` payload used by concrete witnesses. -/
def sampleResults : JSVal :=
  .obj [("events", .arr [sampleEvent 0, sampleEvent 1, sampleEvent 2,
    sampleEvent 3, sampleEvent 4])]

/-- C3: the ingestion pipeline's cursor semantics.  With no candidate
events the cursor is returned unchanged and nothing is processed.
With an in-range numeric cursor `0 ≤ c < length` the pipeline processes
exactly the suffix starting at index `c` (the full-array run is the
processed prefix of the first `c` events followed by exactly that
suffix), and returns the array length as the next cursor.  With an
absent or out-of-range cursor the whole array is reprocessed, again
returning the array length. -/
theorem C3_ingest_cursor_semantics (jobId userId : String) (nr : JSVal)
    (fb : String) (prev : Option Int) :
    (extractEventPayloads nr = [] →
      ingestResultEvents jobId userId nr fb prev = ([], prev)) ∧
    (∀ c : Int, prev = some c → 0 ≤ c → c < (extractEventPayloads nr).length →
      ingestResultEvents jobId userId nr fb prev =
        (buildRows jobId userId fb c.toNat ((extractEventPayloads nr).drop c.toNat),
          some ((extractEventPayloads nr).length : Int)) ∧
      buildRows jobId userId fb 0 (extractEventPayloads nr) =
        buildRows jobId userId fb 0 ((extractEventPayloads nr).take c.toNat) ++
          (ingestResultEvents jobId userId nr fb prev).1) ∧
    (extractEventPayloads nr ≠ [] → prev = none →
      ingestResultEvents jobId userId nr fb prev =
        (buildRows jobId userId fb 0 (extractEventPayloads nr),
          some ((extractEventPayloads nr).length : Int))) ∧
    (∀ c : Int, extractEventPayloads nr ≠ [] → prev = some c →
      (c < 0 ∨ ((extractEventPayloads nr).length : Int) ≤ c) →
      ingestResultEvents jobId userId nr fb prev =
        (buildRows jobId userId fb 0 (extractEventPayloads nr),
          some ((extractEventPayloads nr).length : Int))) := by
  refine ⟨?_, ?_, ?_, ?_⟩
  · intro h
    simp [ingestResultEvents, h]
  · intro c hc h0 hlen
    subst hc
    have hne : (extractEventPayloads nr).isEmpty = false := by
      cases hx : extractEventPayloads nr with
      | nil => rw [hx] at hlen; simp at hlen; omega
      | cons a as => simp [hx]
    have hin : (0 ≤ c ∧ c < ((extractEventPayloads nr).length : Int)) := ⟨h0, hlen⟩
    constructor
    · simp [ingestResultEvents, hne, hin]
    · have hsplit := (extractEventPayloads nr).take_append_drop c.toNat
      have hlen2 : ((extractEventPayloads nr).take c.toNat).length = c.toNat := by
        rw [List.length_take]
        have : c.toNat ≤ (extractEventPayloads nr).length := by omega
        omega
      conv_lhs => rw [← hsplit]
      rw [buildRows_append, hlen2]
      simp [ingestResultEvents, hne, hin]
  · intro hne hc
    subst hc
    have hne2 : (extractEventPayloads nr).isEmpty = false := by
      cases hx : extractEventPayloads nr with
      | nil => exact absurd hx hne
      | cons a as => simp [hx]
    simp [ingestResultEvents, hne2]
  · intro c hne hc hout
    subst hc
    have hne2 : (extractEventPayloads nr).isEmpty = false := by
      cases hx : extractEventPayloads nr with
      | nil => exact absurd hx hne
      | cons a as => simp [hx]
    have hnotin : ¬ (0 ≤ c ∧ c < ((extractEventPayloads nr).length : Int)) := by omega
    simp [ingestResultEvents, hne2, hnotin]

/-- C3 witness: the amended-free claim at the spec's own example — a
raw array of length 5 with prior cursor 3 processes exactly the events
at indices 3 and 4 (two rows, with messages `m3`, `m4`) and returns
cursor 5; the same array with no cursor processes all five events. -/
theorem C3_witness :
    ((0 : Int) ≤ 3 ∧ (3 : Int) < ((extractEventPayloads sampleResults).length : Int)) ∧
    ingestResultEvents "j1" "u" sampleResults "2024-01-01T00:00:00.000Z" (some 3) =
      (buildRows "j1" "u" "2024-01-01T00:00:00.000Z" 3
        ((extractEventPayloads sampleResults).drop 3),
        some ((extractEventPayloads sampleResults).length : Int)) ∧
    ((ingestResultEvents "j1" "u" sampleResults "2024-01-01T00:00:00.000Z" (some 3)).1.map
        (fun e => e.message)) = ["m3", "m4"] ∧
    ((ingestResultEvents "j1" "u" sampleResults "2024-01-01T00:00:00.000Z" none).1.map
        (fun e => e.message)) = ["m0", "m1", "m2", "m3", "m4"] := by
  refine ⟨⟨by decide, by decide⟩, ?_, by decide, by decide⟩
  exact ((C3_ingest_cursor_semantics "j1" "u" sampleResults
    "2024-01-01T00:00:00.000Z" (some 3)).2.1 3 rfl (by decide) (by decide)).1

/-! ## C4 -/

/-- The identifiers assigned by a full (cursor-unset) ingestion run of
`sampleResults` at a given poll timestamp. -/
def sampleIdsAt (fb : String) : List String :=
  (ingestResultEvents "j1" "u" sampleResults fb none).1.map (fun e => e.id)

/-- C4 counterexample: the claim says re-ingesting the same raw array
in two separate pipeline invocations (cursor unset both times) yields
identical identifier sets.  For raw events that carry no timestamp of
their own, `normalizeEventTimestamp` substitutes the invoking poll's
wall-clock timestamp, and that timestamp is part of the hashed
identifier tuple — so two invocations one day apart assign five
identifiers with not a single one in common. -/
theorem C4_counterexample :
    (sampleIdsAt "2024-01-01T00:00:00.000Z").length = 5 ∧
    (sampleIdsAt "2024-01-02T00:00:00.000Z").length = 5 ∧
    (sampleIdsAt "2024-01-01T00:00:00.000Z").inter
      (sampleIdsAt "2024-01-02T00:00:00.000Z") = [] := by
  exact ⟨by decide, by decide, by decide⟩

theorem normalizeEventTimestamp_str {s : String} (hs : s ≠ "") (fb : String) :
    normalizeEventTimestamp (.str s) fb = s := by
  simp [normalizeEventTimestamp, JSVal.truthy, hs]

theorem normalizeEventPayload_congr {e : JSVal} (h : hasOwnTimestamp e = true)
    (fb1 fb2 : String) :
    normalizeEventPayload e fb1 = normalizeEventPayload e fb2 := by
  unfold hasOwnTimestamp at h
  cases hp : tsProbe e with
  | str s =>
    rw [hp] at h
    have hs : s ≠ "" := by simpa using h
    unfold normalizeEventPayload
    simp only [hp, normalizeEventTimestamp_str hs]
  | null => rw [hp] at h; simp at h
  | undefined => rw [hp] at h; simp at h
  | bool b => rw [hp] at h; simp at h
  | num n => rw [hp] at h; simp at h
  | arr xs => rw [hp] at h; simp at h
  | obj fs => rw [hp] at h; simp at h

theorem normalizeEventPayload_createdAt {e : JSVal} (h : hasOwnTimestamp e = true)
    {fb : String} {n : NormalizedEventPayload}
    (hn : normalizeEventPayload e fb = some n) : n.createdAt ≠ "" := by
  unfold hasOwnTimestamp at h
  cases hp : tsProbe e with
  | str s =>
    rw [hp] at h
    have hs : s ≠ "" := by simpa using h
    unfold normalizeEventPayload at hn
    simp only [hp, normalizeEventTimestamp_str hs] at hn
    split at hn
    · exact absurd hn (by simp)
    · split at hn
      · cases hn with
        | refl => exact hs
      · cases hn with
        | refl => exact hs
  | null => rw [hp] at h; simp at h
  | undefined => rw [hp] at h; simp at h
  | bool b => rw [hp] at h; simp at h
  | num m => rw [hp] at h; simp at h
  | arr xs => rw [hp] at h; simp at h
  | obj fs => rw [hp] at h; simp at h

theorem buildEventRow_congr {n : NormalizedEventPayload} (h : n.createdAt ≠ "")
    (jobId userId fb1 fb2 : String) (i : Nat) :
    buildEventRow jobId userId n fb1 i = buildEventRow jobId userId n fb2 i := by
  unfold buildEventRow
  simp only [normalizeEventTimestamp_str h]

theorem buildRows_congr (jobId userId fb1 fb2 : String) (l : List JSVal) (i : Nat)
    (h : ∀ e ∈ l, hasOwnTimestamp e = true) :
    buildRows jobId userId fb1 i l = buildRows jobId userId fb2 i l := by
  induction l generalizing i with
  | nil => rfl
  | cons e rest ih =>
    have he := h e (List.mem_cons_self e rest)
    have hrest : ∀ x ∈ rest, hasOwnTimestamp x = true :=
      fun x hx => h x (List.mem_cons_of_mem e hx)
    unfold buildRows
    rw [normalizeEventPayload_congr he fb1 fb2]
    cases hn : normalizeEventPayload e fb2 with
    | none => simpa [hn] using ih (i + 1) hrest
    | some n =>
      have hcr := normalizeEventPayload_createdAt he hn
      simp only [Option.some_bind]
      rw [buildEventRow_congr hcr jobId userId fb1 fb2 i]
      cases hr : buildEventRow jobId userId n fb2 i with
      | none => simpa [hn, hr] using ih (i + 1) hrest
      | some row => simp [hn, hr, ih (i + 1) hrest]

/-- C4 (amended): the assigned identifier is a deterministic hash of
the normalized tuple, but the tuple's `createdAt` component falls back
to the invoking poll's timestamp when the raw event carries none; so
two cursor-unset invocations yield identical identifier sets PROVIDED
every ingested raw event carries its own non-empty string timestamp
(equivalently, whenever the two invocations share the fallback
timestamp).  Without that proviso the identifiers differ, as the
counterexample shows. -/
theorem C4_event_ids_deterministic_amended (jobId userId : String) (nr : JSVal)
    (fb1 fb2 : String) (prev : Option Int)
    (h : ∀ e ∈ extractEventPayloads nr, hasOwnTimestamp e = true) :
    (ingestResultEvents jobId userId nr fb1 prev).1.map (fun e => e.id) =
      (ingestResultEvents jobId userId nr fb2 prev).1.map (fun e => e.id) := by
  unfold ingestResultEvents
  cases hE : (extractEventPayloads nr).isEmpty
  · have hrows := buildRows_congr jobId userId fb1 fb2
      ((extractEventPayloads nr).drop
        (match prev with
         | some c => if 0 ≤ c ∧ c < ((extractEventPayloads nr).length : Int) then c.toNat else 0
         | none => 0))
      (match prev with
       | some c => if 0 ≤ c ∧ c < ((extractEventPayloads nr).length : Int) then c.toNat else 0
       | none => 0)
      (fun e he => h e (List.drop_subset _ _ he))
    simp [hE, hrows]
  · simp [hE]

/-- Timestamped variant of the fixture events: each raw event carries
its own ISO `createdAt`. -/
def sampleTimedEvent (n : Nat) : JSVal :=
  .obj [("type", .str "step"), ("phase", .str "p"),
    ("message", .str ("m" ++ toString n)),
    ("createdAt", .str ("2024-01-01T00:00:0" ++ toString n ++ ".000Z"))]

/-- Raw payload whose events all carry their own timestamps. -/
def sampleTimedResults : JSVal :=
  .obj [("events", .arr [sampleTimedEvent 0, sampleTimedEvent 1])]

/-- C4 witness: for the timestamped fixture the hypothesis of the
amended theorem holds and two ingestion runs a day apart assign the
same two identifiers. -/
theorem C4_witness :
    (∀ e ∈ extractEventPayloads sampleTimedResults, hasOwnTimestamp e = true) ∧
    (ingestResultEvents "j1" "u" sampleTimedResults "2024-01-01T00:00:00.000Z" none).1.map
        (fun e => e.id) =
      (ingestResultEvents "j1" "u" sampleTimedResults "2024-01-02T00:00:00.000Z" none).1.map
        (fun e => e.id) ∧
    ((ingestResultEvents "j1" "u" sampleTimedResults "2024-01-01T00:00:00.000Z" none).1.map
        (fun e => e.id)).length = 2 := by
  refine ⟨by decide, ?_, by decide⟩
  exact C4_event_ids_deterministic_amended "j1" "u" sampleTimedResults
    "2024-01-01T00:00:00.000Z" "2024-01-02T00:00:00.000Z" none (by decide)

/-! ## C9 -/

/-- The row-level merge described by the amended C9, written from the
amended claim's words for comparison with the source `upsertJob`: every
field supplied with a non-null value overrides the stored one EXCEPT
`created_at` (immutable once the row exists); a field supplied as
`null` or not supplied at all keeps the stored value. -/
def specMergedRow (p : JobRowPatch) (e : ResearchJobRow) : ResearchJobRow :=
  { job_id := p.job_id
    user_id := p.user_id.orD e.user_id
    instructions := p.instructions.orD e.instructions
    status := p.status.orD e.status
    progress := p.progress.orN e.progress
    results := p.results.orN e.results
    async_server_job_id := p.async_server_job_id.orN e.async_server_job_id
    created_at := e.created_at
    updated_at := p.updated_at.orD e.updated_at
    completed_at := p.completed_at.orN e.completed_at
    title := p.title.orN e.title
    summary := p.summary.orN e.summary
    citation_count := p.citation_count.orN e.citation_count
    processed_markdown := p.processed_markdown.orN e.processed_markdown
    original_query := p.original_query.orN e.original_query
    sections := p.sections.orD e.sections
    research_type := p.research_type.orD e.research_type
    response_id := p.response_id.orN e.response_id
    webhook_data := p.webhook_data.orN e.webhook_data
    parent_id := p.parent_id.orN e.parent_id
    job_type := p.job_type.orD e.job_type
    subtopic := p.subtopic.orN e.subtopic
    order_index := p.order_index.orN e.order_index
    estimated_tokens := p.estimated_tokens.orN e.estimated_tokens
    actual_tokens := p.actual_tokens.orN e.actual_tokens
    started_at := p.started_at.orN e.started_at
    tagged_documents := p.tagged_documents.orN e.tagged_documents
    enhancement_options := p.enhancement_options.orN e.enhancement_options
    running_context := p.running_context.orN e.running_context
    enhanced_sections := p.enhanced_sections.orN e.enhanced_sections
    section_metadata := p.section_metadata.orN e.section_metadata
    enhancement_status := p.enhancement_status.orN e.enhancement_status
    current_section_index := p.current_section_index.orN e.current_section_index
    total_sections := p.total_sections.orN e.total_sections
    enhanced_content := p.enhanced_content.orN e.enhanced_content
    exa_research_id := p.exa_research_id.orN e.exa_research_id
    report_note_path := p.report_note_path.orN e.report_note_path }

/-- An existing persisted row used by the C9 fixtures. -/
def sampleJobRow : ResearchJobRow :=
  { job_id := "j1"
    user_id := "u"
    instructions := "optimized prompt"
    status := "running"
    progress := some 5
    results := none
    async_server_job_id := none
    created_at := "2024-01-01T00:00:00.000Z"
    updated_at := "2024-01-01T00:00:00.000Z"
    completed_at := none
    title := none
    summary := none
    citation_count := none
    processed_markdown := none
    original_query := some "orig"
    sections := "[]"
    research_type := "exa"
    response_id := none
    webhook_data := none
    parent_id := none
    job_type := "root"
    subtopic := none
    order_index := none
    estimated_tokens := none
    actual_tokens := none
    started_at := none
    tagged_documents := none
    enhancement_options := none
    running_context := none
    enhanced_sections := none
    section_metadata := none
    enhancement_status := none
    current_section_index := none
    total_sections := none
    enhanced_content := none
    exa_research_id := none
    report_note_path := none }

/-- A one-row store holding `sampleJobRow`. -/
def sampleStore : JobStore :=
  fun j => if j = "j1" then some sampleJobRow else none

/-- A patch that supplies `progress` explicitly as `null` and a new
`created_at`. -/
def samplePatch : JobRowPatch :=
  { job_id := "j1"
    user_id := .val "u"
    progress := .null
    created_at := .val "2030-01-01T00:00:00.000Z" }

/-- C9 counterexample: the claim says every field supplied in the
partial input is merged over the stored row.  Two supplied fields
refute it: `progress` supplied as `null` is swallowed by the `??`
chain (the stored `5` survives), and a supplied `created_at` is
ignored because the SQL conflict-update list omits that column (the
stored creation time survives). -/
theorem C9_counterexample :
    ((upsertJob "2024-06-01T00:00:00.000Z" sampleStore samplePatch) "j1").map
        (fun r => r.progress) = some (some 5) ∧
    ((upsertJob "2024-06-01T00:00:00.000Z" sampleStore samplePatch) "j1").map
        (fun r => r.created_at) = some "2024-01-01T00:00:00.000Z" ∧
    some (some (5 : Int)) ≠ some (none : Option Int) ∧
    ("2024-01-01T00:00:00.000Z" : String) ≠ "2030-01-01T00:00:00.000Z" := by
  refine ⟨by decide, by decide, by decide, by decide⟩

/-- C9 (amended): for an `upsertJob` call whose key matches an existing
row, the stored result is exactly the merge in which each field
supplied with a non-null value overrides the stored one — except
`created_at`, which the conflict update never touches — while fields
supplied as `null` and fields not supplied retain the stored value
(type-appropriate defaults only apply when no row exists). -/
theorem C9_upsert_merge_amended (now : String) (store : JobStore)
    (p : JobRowPatch) (e : ResearchJobRow)
    (h : getJob store p.job_id = some e) :
    getJob (upsertJob now store p) p.job_id = some (specMergedRow p e) := by
  have h' : store p.job_id = some e := h
  simp only [getJob, upsertJob, h', if_pos]
  rfl

/-- C9 witness: the amended merge statement at the concrete fixture
(store holding `sampleJobRow`, patched by `samplePatch`). -/
theorem C9_witness :
    getJob sampleStore samplePatch.job_id = some sampleJobRow ∧
    getJob (upsertJob "2024-06-01T00:00:00.000Z" sampleStore samplePatch)
        samplePatch.job_id = some (specMergedRow samplePatch sampleJobRow) :=
  ⟨rfl, C9_upsert_merge_amended "2024-06-01T00:00:00.000Z" sampleStore samplePatch
    sampleJobRow rfl⟩

/-! ## Frame lemmas for the per-tick state transition -/

theorem maybeWriteReport_events (cfg : ManagerConfig) (now jobId : String)
    (data : ExtractedReportData) (s : ManagerState) :
    (maybeWriteReport cfg now jobId data s).events = s.events := by
  unfold maybeWriteReport
  split
  · rfl
  · split
    · rfl
    · split
      · rfl
      · split
        · rfl
        · rfl

theorem maybeWriteReport_cache (cfg : ManagerConfig) (now jobId : String)
    (data : ExtractedReportData) (s : ManagerState) :
    (maybeWriteReport cfg now jobId data s).cache = s.cache := by
  unfold maybeWriteReport
  split
  · rfl
  · split
    · rfl
    · split
      · rfl
      · split
        · rfl
        · rfl

theorem maybeWriteReport_polls (cfg : ManagerConfig) (now jobId : String)
    (data : ExtractedReportData) (s : ManagerState) :
    (maybeWriteReport cfg now jobId data s).polls = s.polls := by
  unfold maybeWriteReport
  split
  · rfl
  · split
    · rfl
    · split
      · rfl
      · split
        · rfl
        · rfl

theorem maybeWriteReport_freshIds (cfg : ManagerConfig) (now jobId : String)
    (data : ExtractedReportData) (s : ManagerState) :
    (maybeWriteReport cfg now jobId data s).freshIds = s.freshIds := by
  unfold maybeWriteReport
  split
  · rfl
  · split
    · rfl
    · split
      · rfl
      · split
        · rfl
        · rfl

theorem ingest_of_no_candidates {nr : JSVal} (h : extractEventPayloads nr = [])
    (jobId userId fb : String) (prev : Option Int) :
    ingestResultEvents jobId userId nr fb prev = ([], prev) := by
  simp [ingestResultEvents, h]

/-- The event log after a successful tick whose payload contains no
candidate sub-events: one `job_progress` row is tentatively inserted
exactly when the cached status or progress differs. -/
theorem applyStatus_events_noraw (cfg : ManagerConfig) (now jobId : String)
    (st : JobStatusResponse) (s : ManagerState)
    (hnoev : extractEventPayloads (normalizeResults cfg.parse st.results) = []) :
    (applyStatus cfg now jobId st s).events =
      if ((s.cache jobId).getD {}).status ≠ some st.status ∨
          ((s.cache jobId).getD {}).progress ≠ st.progress then
        insertEvent s.events (progressEvent cfg.userId now jobId st (genId s.freshIds))
      else s.events := by
  simp only [applyStatus, ingest_of_no_candidates hnoev, List.foldl_nil]
  split_ifs <;> simp [maybeWriteReport_events, stopPolling]

/-- After a successful tick the cache entry for the job records the
fetched status and progress (and the cursor returned by ingestion). -/
theorem applyStatus_cache_self (cfg : ManagerConfig) (now jobId : String)
    (st : JobStatusResponse) (s : ManagerState) :
    (applyStatus cfg now jobId st s).cache jobId =
      some { status := some st.status
             progress := st.progress
             eventCount := (ingestResultEvents jobId cfg.userId
               (normalizeResults cfg.parse st.results) now
               ((s.cache jobId).getD {}).eventCount).2 } := by
  simp only [applyStatus]
  split_ifs <;> simp [maybeWriteReport_cache, stopPolling]

theorem applyStatus_freshIds_nochange (cfg : ManagerConfig) (now jobId : String)
    (st : JobStatusResponse) (s : ManagerState)
    (hsame : ¬ (((s.cache jobId).getD {}).status ≠ some st.status ∨
      ((s.cache jobId).getD {}).progress ≠ st.progress)) :
    (applyStatus cfg now jobId st s).freshIds = s.freshIds := by
  simp only [applyStatus]
  rw [if_neg hsame]
  split_ifs <;> simp [maybeWriteReport_freshIds, stopPolling]

/-! ## C6 -/

theorem insertEvent_fresh {evs : List ResearchEventRow} {e : ResearchEventRow}
    (h : ∀ x ∈ evs, x.id ≠ e.id) : insertEvent evs e = evs ++ [e] := by
  have hc : ¬ (evs.any (fun x => x.id = e.id) = true) := by
    simp only [List.any_eq_true, decide_eq_true_eq]
    rintro ⟨x, hx, hid⟩
    exact h x hx hid
  unfold insertEvent
  rw [if_neg hc]

/-- C6: when the status fetch of a tick throws, that tick appends
exactly one `status_error` event and nothing else changes — the whole
resulting state is the old state with that one event appended (and the
fresh-id counter advanced): the job store, the state cache, the active
polling set, the created documents and the notices are all untouched,
so the next scheduled tick still fires. -/
theorem C6_status_error_tick_isolated (cfg : ManagerConfig)
    (now jobId msg : String) (s : ManagerState)
    (hfresh : ∀ e ∈ s.events, e.id ≠ genId s.freshIds) :
    poll cfg now jobId (.error msg) s =
      { s with
        events := s.events ++
          [statusErrorEvent cfg.userId now jobId msg (genId s.freshIds)]
        freshIds := s.freshIds + 1 } ∧
    (statusErrorEvent cfg.userId now jobId msg (genId s.freshIds)).type =
      "status_error" ∧
    (poll cfg now jobId (.error msg) s).jobs = s.jobs ∧
    (poll cfg now jobId (.error msg) s).cache = s.cache ∧
    (poll cfg now jobId (.error msg) s).polls = s.polls ∧
    (poll cfg now jobId (.error msg) s).docs = s.docs ∧
    (poll cfg now jobId (.error msg) s).notices = s.notices := by
  have he : insertEvent s.events
      (statusErrorEvent cfg.userId now jobId msg (genId s.freshIds)) =
      s.events ++ [statusErrorEvent cfg.userId now jobId msg (genId s.freshIds)] :=
    insertEvent_fresh (fun x hx => hfresh x hx)
  refine ⟨?_, rfl, rfl, rfl, rfl, rfl, rfl⟩
  simp only [poll, he]

/-- The manager configuration used by concrete witnesses: a rejecting
parser and a note writer that always lands on one path. -/
def sampleConfig : ManagerConfig :=
  { userId := "u"
    outputFolder := "Research"
    includePromptSection := false
    parse := fun _ => none
    writeNote := fun _ => "Research/Report.md" }

/-- A manager state with one running job (`sampleJobRow`), an empty
event log and no documents. -/
def sampleState : ManagerState :=
  { polls := fun j => j == "j1"
    cache := fun _ => none
    jobs := sampleStore
    events := []
    docs := []
    notices := []
    freshIds := 0 }

/-- C6 witness: the failing tick at a concrete state — the event log
grows by exactly the one `status_error` row and the rest of the state
survives verbatim. -/
theorem C6_witness :
    (∀ e ∈ sampleState.events, e.id ≠ genId sampleState.freshIds) ∧
    poll sampleConfig "2024-01-01T00:01:00.000Z" "j1" (.error "boom") sampleState =
      { sampleState with
        events := sampleState.events ++
          [statusErrorEvent sampleConfig.userId "2024-01-01T00:01:00.000Z" "j1"
            "boom" (genId sampleState.freshIds)]
        freshIds := sampleState.freshIds + 1 } := by
  refine ⟨by simp [sampleState], ?_⟩
  exact (C6_status_error_tick_isolated sampleConfig "2024-01-01T00:01:00.000Z"
    "j1" "boom" sampleState (by simp [sampleState])).1

/-! ## C5 -/

/-- C5: during a successful poll tick (stated here for payloads with no
embedded sub-events, so the event log isolates the lifecycle row), a
`job_progress` lifecycle event is appended iff the fetched status or
progress differs from the values cached from the previous tick; in
particular a second successful poll with the identical response
appends zero new events. -/
theorem C5_progress_event_iff_changed (cfg : ManagerConfig)
    (now now2 jobId : String) (st : JobStatusResponse) (s : ManagerState)
    (hnoev : extractEventPayloads (normalizeResults cfg.parse st.results) = [])
    (hfresh : ∀ e ∈ s.events, e.id ≠ genId s.freshIds) :
    (((s.cache jobId).getD {}).status = some st.status ∧
      ((s.cache jobId).getD {}).progress = st.progress →
        (applyStatus cfg now jobId st s).events = s.events) ∧
    (¬ (((s.cache jobId).getD {}).status = some st.status ∧
        ((s.cache jobId).getD {}).progress = st.progress) →
      (applyStatus cfg now jobId st s).events =
        s.events ++ [progressEvent cfg.userId now jobId st (genId s.freshIds)] ∧
      (progressEvent cfg.userId now jobId st (genId s.freshIds)).type =
        "job_progress") ∧
    (applyStatus cfg now2 jobId st (applyStatus cfg now jobId st s)).events =
      (applyStatus cfg now jobId st s).events := by
  have hev := applyStatus_events_noraw cfg now jobId st s hnoev
  refine ⟨?_, ?_, ?_⟩
  · intro hsame
    rw [hev, if_neg]
    push_neg
    exact ⟨hsame.1, hsame.2⟩
  · intro hdiff
    have hcond : ((s.cache jobId).getD {}).status ≠ some st.status ∨
        ((s.cache jobId).getD {}).progress ≠ st.progress := by
      by_contra hno
      push_neg at hno
      exact hdiff ⟨hno.1, hno.2⟩
    rw [hev, if_pos hcond]
    exact ⟨insertEvent_fresh hfresh, rfl⟩
  · have hcache := applyStatus_cache_self cfg now jobId st s
    have hev2 := applyStatus_events_noraw cfg now2 jobId st
      (applyStatus cfg now jobId st s) hnoev
    rw [hev2, hcache, if_neg]
    simp

/-- C5 witness: a running-status response applied twice to a state with
a cold cache — the first tick appends the lifecycle row, the second
appends nothing. -/
theorem C5_witness :
    (extractEventPayloads (normalizeResults sampleConfig.parse JSVal.null) = []) ∧
    (¬ (((sampleState.cache "j1").getD {}).status = some "running" ∧
        ((sampleState.cache "j1").getD {}).progress = JsOpt.val 40)) ∧
    (applyStatus sampleConfig "2024-01-01T00:01:00.000Z" "j1"
        { status := "running", progress := .val 40, results := .null }
        sampleState).events =
      sampleState.events ++
        [progressEvent sampleConfig.userId "2024-01-01T00:01:00.000Z" "j1"
          { status := "running", progress := .val 40, results := .null }
          (genId sampleState.freshIds)] ∧
    (applyStatus sampleConfig "2024-01-01T00:02:00.000Z" "j1"
        { status := "running", progress := .val 40, results := .null }
        (applyStatus sampleConfig "2024-01-01T00:01:00.000Z" "j1"
          { status := "running", progress := .val 40, results := .null }
          sampleState)).events =
      (applyStatus sampleConfig "2024-01-01T00:01:00.000Z" "j1"
        { status := "running", progress := .val 40, results := .null }
        sampleState).events := by
  have h := C5_progress_event_iff_changed sampleConfig "2024-01-01T00:01:00.000Z"
    "2024-01-01T00:02:00.000Z" "j1"
    { status := "running", progress := .val 40, results := .null }
    sampleState rfl (by simp [sampleState])
  refine ⟨rfl, by simp [sampleState], ?_, h.2.2⟩
  exact (h.2.1 (by simp [sampleState])).1

/-! ## C1 -/

/-- The state a successful tick reaches just before the
report-materialization step: ingestion, cache refresh, row upsert,
conditional lifecycle event and conditional stop-polling.  This is
verbatim the `s1`…`s5` chain of `applyStatus`; the decomposition lemma
below checks the two definitions coincide. -/
def stateBeforeReport (cfg : ManagerConfig) (now jobId : String)
    (st : JobStatusResponse) (s : ManagerState) : ManagerState :=
  let cached := (s.cache jobId).getD {}
  let statusChanged := cached.status ≠ some st.status
  let progressChanged := cached.progress ≠ st.progress
  let normalizedResults := normalizeResults cfg.parse st.results
  let extracted := extractReportData normalizedResults
  let ingested := ingestResultEvents jobId cfg.userId normalizedResults now cached.eventCount
  let s1 : ManagerState := { s with events := ingested.1.foldl insertEvent s.events }
  let newEntry : JobStateCache :=
    { status := some st.status, progress := st.progress, eventCount := ingested.2 }
  let newCache : String → Option JobStateCache := fun j =>
    if j = jobId then some newEntry else s1.cache j
  let s2 : ManagerState := { s1 with cache := newCache }
  let updatedRow : JobRowPatch := {
    job_id := jobId
    user_id := .val cfg.userId
    status := .val st.status
    progress := match st.progress with
      | .val p => .val p
      | _ => .null
    results := match safeJsonStringify st.results with
      | some r => .val r
      | none => .null
    updated_at := .val now
    started_at := match st.started_at with
      | some v => .val v
      | none => .null
    completed_at := match st.completed_at with
      | some v => .val v
      | none => .null
    exa_research_id := match st.exa_task_id with
      | some v => .val v
      | none =>
        match extracted.exaResearchId with
        | some v => .val v
        | none => .null
    title := match extracted.title with
      | some v => .val v
      | none => .null
    summary := match extracted.summary with
      | some v => .val v
      | none => .null
    citation_count := match extracted.citationCount with
      | some v => .val v
      | none => .null
    processed_markdown := match extracted.markdown with
      | some v => .val v
      | none => .null
    sections := .val (extracted.sectionsJson.getD "[]")
    enhanced_content := match extracted.enhancedContentJson with
      | some v => .val v
      | none => .null
    current_section_index := match extracted.currentSectionIndex with
      | some v => .val v
      | none => .null
    total_sections := match extracted.totalSections with
      | some v => .val v
      | none => .null }
  let s3 : ManagerState := { s2 with jobs := upsertJob now s2.jobs updatedRow }
  let s4 : ManagerState :=
    if statusChanged ∨ progressChanged then
      { s3 with
        events := insertEvent s3.events (progressEvent cfg.userId now jobId st (genId s3.freshIds))
        freshIds := s3.freshIds + 1 }
    else s3
  if applyStatusTerminal st.status then stopPolling jobId s4 else s4

/-- `applyStatus` is the pre-report state transition followed by the
conditional report materialization. -/
theorem applyStatus_eq (cfg : ManagerConfig) (now jobId : String)
    (st : JobStatusResponse) (s : ManagerState) :
    applyStatus cfg now jobId st s =
      (if st.status = "completed" then
        maybeWriteReport cfg now jobId
          (extractReportData (normalizeResults cfg.parse st.results))
          (stateBeforeReport cfg now jobId st s)
      else stateBeforeReport cfg now jobId st s) := rfl

theorem sbr_docs (cfg : ManagerConfig) (now jobId : String)
    (st : JobStatusResponse) (s : ManagerState) :
    (stateBeforeReport cfg now jobId st s).docs = s.docs := by
  simp only [stateBeforeReport]
  split_ifs <;> simp [stopPolling]

theorem sbr_notices (cfg : ManagerConfig) (now jobId : String)
    (st : JobStatusResponse) (s : ManagerState) :
    (stateBeforeReport cfg now jobId st s).notices = s.notices := by
  simp only [stateBeforeReport]
  split_ifs <;> simp [stopPolling]

theorem upsertJob_path_frame (now : String) (store : JobStore) (row : JobRowPatch)
    (jobId : String) (hid : row.job_id = jobId)
    (h : row.report_note_path = JsOpt.undefined) :
    ((upsertJob now store row) jobId).bind (fun r => r.report_note_path) =
      (store jobId).bind (fun r => r.report_note_path) := by
  subst hid
  simp only [upsertJob, getJob]
  cases he : store row.job_id with
  | none => simp [he, upsertValues, h, JsOpt.toOptN]
  | some e => simp [he, upsertValues, h, JsOpt.orN]

theorem upsertJob_path_val (now : String) (store : JobStore) (row : JobRowPatch)
    (jobId : String) (p : String) (hid : row.job_id = jobId)
    (h : row.report_note_path = JsOpt.val p) :
    ((upsertJob now store row) jobId).bind (fun r => r.report_note_path) = some p := by
  subst hid
  simp only [upsertJob, getJob]
  cases he : store row.job_id with
  | none => simp [he, upsertValues, h, JsOpt.toOptN]
  | some e => simp [he, upsertValues, h, JsOpt.orN]

theorem upsertJob_self_isSome (now : String) (store : JobStore) (row : JobRowPatch)
    (jobId : String) (hid : row.job_id = jobId) :
    ((upsertJob now store row) jobId).isSome = true := by
  subst hid
  simp only [upsertJob, getJob]
  cases he : store row.job_id <;> simp [he]

theorem sbr_jobPath (cfg : ManagerConfig) (now jobId : String)
    (st : JobStatusResponse) (s : ManagerState) :
    jobPath (stateBeforeReport cfg now jobId st s) jobId = jobPath s jobId := by
  unfold jobPath
  simp only [stateBeforeReport]
  split_ifs <;> simp only [stopPolling] <;>
    exact upsertJob_path_frame now s.jobs _ jobId rfl rfl

theorem sbr_jobs_isSome (cfg : ManagerConfig) (now jobId : String)
    (st : JobStatusResponse) (s : ManagerState) :
    ((stateBeforeReport cfg now jobId st s).jobs jobId).isSome = true := by
  simp only [stateBeforeReport]
  split_ifs <;> simp only [stopPolling] <;>
    exact upsertJob_self_isSome now s.jobs _ jobId rfl

/-- The note-writer arguments `maybeWriteReport` assembles. -/
def noteArgs (cfg : ManagerConfig) (d : ExtractedReportData)
    (job : ResearchJobRow) (md : String) : ReportNoteData :=
  { title := match d.title with
      | some t => if t = "" then "Research report" else t
      | none => "Research report"
    summary := d.summary
    markdown := md
    originalPrompt := job.original_query
    optimizedPrompt := some job.instructions
    includePromptSection := cfg.includePromptSection
    folder := cfg.outputFolder }

theorem maybeWriteReport_noop_of_path (cfg : ManagerConfig) (now jobId : String)
    (d : ExtractedReportData) (s : ManagerState) (p : String) (hp : p ≠ "")
    (hpath : jobPath s jobId = some p) :
    maybeWriteReport cfg now jobId d s = s := by
  unfold jobPath at hpath
  cases hj : s.jobs jobId with
  | none => rw [hj] at hpath; cases hpath
  | some job =>
    rw [hj] at hpath
    simp only [Option.some_bind] at hpath
    simp [maybeWriteReport, getJob, hj, hpath, strOptTruthy, hp]

theorem maybeWriteReport_blank (cfg : ManagerConfig) (now jobId : String)
    (d : ExtractedReportData) (s : ManagerState)
    (hb : blankExtract d = true) (hjob : (s.jobs jobId).isSome = true)
    (hpath : jobPath s jobId = none) :
    maybeWriteReport cfg now jobId d s =
      { s with notices := s.notices ++
          ["Research completed, but no markdown was returned."] } := by
  unfold jobPath at hpath
  cases hj : s.jobs jobId with
  | none => rw [hj] at hjob; cases hjob
  | some job =>
    rw [hj] at hpath
    simp only [Option.some_bind] at hpath
    cases hm : d.markdown with
    | none => simp [maybeWriteReport, getJob, hj, hpath, strOptTruthy, hm]
    | some md =>
      have hbe : jsTrim md = "" := by
        unfold blankExtract at hb
        rw [hm] at hb
        simpa using hb
      simp [maybeWriteReport, getJob, hj, hpath, strOptTruthy, hm, hbe]

theorem maybeWriteReport_write (cfg : ManagerConfig) (now jobId : String)
    (d : ExtractedReportData) (s : ManagerState) (job : ResearchJobRow)
    (md : String) (hj : s.jobs jobId = some job)
    (hpath : job.report_note_path = none) (hmd : d.markdown = some md)
    (hnb : ¬ jsTrim md = "") :
    maybeWriteReport cfg now jobId d s =
      { s with
        docs := s.docs ++ [cfg.writeNote (noteArgs cfg d job md)]
        jobs := upsertJob now s.jobs
          { job_id := jobId
            user_id := .val cfg.userId
            report_note_path := .val (cfg.writeNote (noteArgs cfg d job md))
            updated_at := .val now } } := by
  simp [maybeWriteReport, getJob, hj, hpath, strOptTruthy, hmd, hnb, noteArgs]

/-- A completed (or any) tick never disturbs an already-assigned
report path: the path survives verbatim and no document or notice is
added. -/
theorem applyStatus_path_kept (cfg : ManagerConfig) (now jobId : String)
    (st : JobStatusResponse) (s : ManagerState) (p : String) (hp : p ≠ "")
    (hpath : jobPath s jobId = some p) :
    jobPath (applyStatus cfg now jobId st s) jobId = some p ∧
    (applyStatus cfg now jobId st s).docs = s.docs ∧
    (applyStatus cfg now jobId st s).notices = s.notices := by
  rw [applyStatus_eq]
  have h5 : jobPath (stateBeforeReport cfg now jobId st s) jobId = some p :=
    (sbr_jobPath cfg now jobId st s).trans hpath
  split_ifs with hc
  · rw [maybeWriteReport_noop_of_path cfg now jobId _ _ p hp h5]
    exact ⟨h5, sbr_docs cfg now jobId st s, sbr_notices cfg now jobId st s⟩
  · exact ⟨h5, sbr_docs cfg now jobId st s, sbr_notices cfg now jobId st s⟩

/-- A completed tick whose payload yields no usable markdown: no
document, the path stays unset, exactly one notice is surfaced, and
the job row still exists. -/
theorem applyStatus_blank_tick (cfg : ManagerConfig) (now jobId : String)
    (st : JobStatusResponse) (s : ManagerState)
    (hst : st.status = "completed")
    (hb : blankMarkdown cfg st.results = true)
    (hpath : jobPath s jobId = none) :
    jobPath (applyStatus cfg now jobId st s) jobId = none ∧
    (applyStatus cfg now jobId st s).docs = s.docs ∧
    (applyStatus cfg now jobId st s).notices = s.notices ++
      ["Research completed, but no markdown was returned."] ∧
    ((applyStatus cfg now jobId st s).jobs jobId).isSome = true := by
  rw [applyStatus_eq, if_pos hst]
  have h5path : jobPath (stateBeforeReport cfg now jobId st s) jobId = none :=
    (sbr_jobPath cfg now jobId st s).trans hpath
  have h5some := sbr_jobs_isSome cfg now jobId st s
  rw [maybeWriteReport_blank cfg now jobId _ _ hb h5some h5path]
  refine ⟨?_, ?_, ?_, ?_⟩
  · exact h5path
  · exact sbr_docs cfg now jobId st s
  · rw [sbr_notices cfg now jobId st s]
  · exact h5some

/-- A tick from an unset path either leaves everything as is (no
markdown) or assigns a non-empty path and creates exactly one
document. -/
theorem applyStatus_path_none_tick (cfg : ManagerConfig) (now jobId : String)
    (st : JobStatusResponse) (s : ManagerState)
    (hw : ∀ a, cfg.writeNote a ≠ "")
    (hpath : jobPath s jobId = none) :
    (jobPath (applyStatus cfg now jobId st s) jobId = none ∧
      (applyStatus cfg now jobId st s).docs = s.docs ∧
      ((applyStatus cfg now jobId st s).jobs jobId).isSome = true) ∨
    (∃ p, p ≠ "" ∧ jobPath (applyStatus cfg now jobId st s) jobId = some p ∧
      (applyStatus cfg now jobId st s).docs = s.docs ++ [p] ∧
      ((applyStatus cfg now jobId st s).jobs jobId).isSome = true) := by
  rw [applyStatus_eq]
  have h5path : jobPath (stateBeforeReport cfg now jobId st s) jobId = none :=
    (sbr_jobPath cfg now jobId st s).trans hpath
  have h5some := sbr_jobs_isSome cfg now jobId st s
  split_ifs with hc
  · cases hjs : (stateBeforeReport cfg now jobId st s).jobs jobId with
    | none => rw [hjs] at h5some; cases h5some
    | some job =>
      have hjp : job.report_note_path = none := by
        unfold jobPath at h5path
        rw [hjs] at h5path
        simpa using h5path
      cases hm : (extractReportData (normalizeResults cfg.parse st.results)).markdown with
      | none =>
        left
        have hb : blankExtract (extractReportData (normalizeResults cfg.parse st.results)) = true := by
          unfold blankExtract
          rw [hm]
        rw [maybeWriteReport_blank cfg now jobId _ _ hb h5some h5path]
        exact ⟨h5path, sbr_docs cfg now jobId st s, by simpa using h5some⟩
      | some md =>
        by_cases hnb : jsTrim md = ""
        · left
          have hb : blankExtract (extractReportData (normalizeResults cfg.parse st.results)) = true := by
            unfold blankExtract
            rw [hm]
            simp [hnb]
          rw [maybeWriteReport_blank cfg now jobId _ _ hb h5some h5path]
          exact ⟨h5path, sbr_docs cfg now jobId st s, by simpa using h5some⟩
        · right
          rw [maybeWriteReport_write cfg now jobId _ _ job md hjs hjp hm hnb]
          refine ⟨cfg.writeNote (noteArgs cfg
            (extractReportData (normalizeResults cfg.parse st.results)) job md),
            hw _, ?_, ?_, ?_⟩
          · unfold jobPath
            exact upsertJob_path_val now _ _ jobId _ rfl rfl
          · rw [sbr_docs cfg now jobId st s]
          · exact upsertJob_self_isSome now _ _ jobId rfl
  · exact Or.inl ⟨h5path, sbr_docs cfg now jobId st s, h5some⟩

/-- C1: across any sequence of poll ticks observing `completed` (the
re-poll-after-completion case included), the report path is assigned at
most once — once non-null it is never overwritten and no further
document is created; from a fresh job at most one document is ever
created; and when every completed tick's payload carries no usable
markdown, no document is created, the path stays null, and each such
tick surfaces exactly one user-visible notice (never an error — the
tick completes normally).  `hw` records that the note writer always
returns a non-empty path (the source always produces
`<folder>/<name>.md`). -/
theorem C1_report_materialized_at_most_once (cfg : ManagerConfig)
    (jobId : String) (ticks : List (String × JobStatusResponse))
    (s0 : ManagerState) (hw : ∀ a, cfg.writeNote a ≠ "")
    (hc : ∀ t ∈ ticks, (t.2).status = "completed") :
    (∀ p, p ≠ "" → jobPath s0 jobId = some p →
      jobPath (ticks.foldl (fun acc t => applyStatus cfg t.1 jobId t.2 acc) s0) jobId
          = some p ∧
      (ticks.foldl (fun acc t => applyStatus cfg t.1 jobId t.2 acc) s0).docs
          = s0.docs) ∧
    (jobPath s0 jobId = none →
      (ticks.foldl (fun acc t => applyStatus cfg t.1 jobId t.2 acc) s0).docs.length
        ≤ s0.docs.length + 1) ∧
    ((∀ t ∈ ticks, blankMarkdown cfg (t.2).results = true) →
      jobPath s0 jobId = none → (s0.jobs jobId).isSome = true →
      jobPath (ticks.foldl (fun acc t => applyStatus cfg t.1 jobId t.2 acc) s0) jobId
          = none ∧
      (ticks.foldl (fun acc t => applyStatus cfg t.1 jobId t.2 acc) s0).docs
          = s0.docs ∧
      (ticks.foldl (fun acc t => applyStatus cfg t.1 jobId t.2 acc) s0).notices.length
          = s0.notices.length + ticks.length) := by
  refine ⟨?_, ?_, ?_⟩
  · intro p hp hpath
    clear hc
    induction ticks generalizing s0 with
    | nil => exact ⟨hpath, rfl⟩
    | cons t rest ih =>
      have hkept := applyStatus_path_kept cfg t.1 jobId t.2 s0 p hp hpath
      have hrest := ih (applyStatus cfg t.1 jobId t.2 s0) hkept.1
      rw [List.foldl_cons]
      exact ⟨hrest.1, hrest.2.trans hkept.2.1⟩
  · intro hpath0
    have key : ∀ (l : List (String × JobStatusResponse)) (s : ManagerState),
        ((jobPath s jobId = none ∧ s.docs.length = s0.docs.length) ∨
          (∃ p, p ≠ "" ∧ jobPath s jobId = some p ∧
            s.docs.length ≤ s0.docs.length + 1)) →
        (l.foldl (fun acc t => applyStatus cfg t.1 jobId t.2 acc) s).docs.length
          ≤ s0.docs.length + 1 := by
      intro l
      induction l with
      | nil =>
        intro s hinv
        simp only [List.foldl_nil]
        rcases hinv with ⟨_, hd⟩ | ⟨p, _, _, hd⟩
        · omega
        · exact hd
      | cons t rest ih =>
        intro s hinv
        rw [List.foldl_cons]
        apply ih
        rcases hinv with ⟨hpn, hd⟩ | ⟨p, hp, hps, hd⟩
        · rcases applyStatus_path_none_tick cfg t.1 jobId t.2 s hw hpn with
            ⟨h1, h2, _⟩ | ⟨p, hp, h1, h2, _⟩
          · exact Or.inl ⟨h1, by rw [h2]; exact hd⟩
          · refine Or.inr ⟨p, hp, h1, ?_⟩
            rw [h2]
            simp
            omega
        · have hkept := applyStatus_path_kept cfg t.1 jobId t.2 s p hp hps
          exact Or.inr ⟨p, hp, hkept.1, by rw [hkept.2.1]; exact hd⟩
    exact key ticks s0 (Or.inl ⟨hpath0, rfl⟩)
  · intro hblank hpath0 hsome0
    have key : ∀ (l : List (String × JobStatusResponse)),
        (∀ t ∈ l, (t.2).status = "completed") →
        (∀ t ∈ l, blankMarkdown cfg (t.2).results = true) →
        ∀ s : ManagerState, jobPath s jobId = none →
          (s.jobs jobId).isSome = true →
          jobPath (l.foldl (fun acc t => applyStatus cfg t.1 jobId t.2 acc) s) jobId
              = none ∧
          (l.foldl (fun acc t => applyStatus cfg t.1 jobId t.2 acc) s).docs = s.docs ∧
          (l.foldl (fun acc t => applyStatus cfg t.1 jobId t.2 acc) s).notices.length
              = s.notices.length + l.length := by
      intro l
      induction l with
      | nil => intro _ _ s h1 h2; exact ⟨h1, rfl, by simp⟩
      | cons t rest ih =>
        intro hcl hbl s h1 h2
        have htick := applyStatus_blank_tick cfg t.1 jobId t.2 s
          (hcl t (List.mem_cons_self t rest))
          (hbl t (List.mem_cons_self t rest)) h1
        have hrest := ih (fun x hx => hcl x (List.mem_cons_of_mem t hx))
          (fun x hx => hbl x (List.mem_cons_of_mem t hx))
          (applyStatus cfg t.1 jobId t.2 s) htick.1 htick.2.2.2
        rw [List.foldl_cons]
        refine ⟨hrest.1, hrest.2.1.trans htick.2.1, ?_⟩
        rw [hrest.2.2, htick.2.2.1]
        simp [List.length_cons]
        omega
    exact key ticks hc hblank s0 hpath0 hsome0

/-- The completed-status response used by the C1 witness. -/
def sampleCompletedResponse : JobStatusResponse :=
  { status := "completed", progress := .val 100, results := .null }

/-- Two consecutive completed poll ticks. -/
def sampleTicks : List (String × JobStatusResponse) :=
  [("2024-01-01T00:01:00.000Z", sampleCompletedResponse),
   ("2024-01-01T00:02:00.000Z", sampleCompletedResponse)]

/-- C1 witness: two consecutive completed polls of a fresh job create
at most one document (the claim's at-most-once bound applied at a
concrete state). -/
theorem C1_witness :
    (∀ a, sampleConfig.writeNote a ≠ "") ∧
    jobPath sampleState "j1" = none ∧
    (∀ t ∈ sampleTicks, (t.2).status = "completed") ∧
    (sampleTicks.foldl (fun acc t => applyStatus sampleConfig t.1 "j1" t.2 acc)
      sampleState).docs.length ≤ sampleState.docs.length + 1 := by
  refine ⟨fun a => by simp [sampleConfig], rfl, ?_, ?_⟩
  · intro t ht
    fin_cases ht <;> rfl
  · exact (C1_report_materialized_at_most_once sampleConfig "j1" sampleTicks
      sampleState (fun a => by simp [sampleConfig])
      (by intro t ht; fin_cases ht <;> rfl)).2.1 rfl

end TuonResearch
